import Mathlib

/-!
Verification development for the LocalStack CloudFormation template deployment
engine (`localstack/services/cloudformation/engine/template_deployer.py`) and
the Route 53 record-set resource provider
(`localstack-core/localstack/services/route53/resource_providers/aws_route53_recordset.py`).

The Python code is shallowly embedded: JSON-like template value trees become
the inductive `Val`; Python dict/str operations become executable Lean
functions on association lists and character lists; external collaborators
(service clients, resource model classes, the SSM/secrets stores, the export
map) become oracle fields of an `Env` record; recursion that Python bounds
with a stack-depth guard becomes explicit fuel.  Fallible code returns
`Except`.
-/

namespace LocalStack

/-- JSON-like value trees: the scalars, lists and string-keyed mappings that
CloudFormation templates, resource dicts and service parameters are made of.
Python `None` is `Val.null`. -/
inductive Val where
  | null
  | str (s : String)
  | int (n : Int)
  | bool (b : Bool)
  | list (xs : List Val)
  | dict (kvs : List (String × Val))

mutual

/-- Structural equality of value trees (Python `==` on JSON-like data). -/
def valBeq : Val → Val → Bool
  | .null, .null => true
  | .str a, .str b => a == b
  | .int a, .int b => a == b
  | .bool a, .bool b => a == b
  | .list a, .list b => valListBeq a b
  | .dict a, .dict b => valKVBeq a b
  | _, _ => false

def valListBeq : List Val → List Val → Bool
  | [], [] => true
  | x :: xs, y :: ys => valBeq x y && valListBeq xs ys
  | _, _ => false

def valKVBeq : List (String × Val) → List (String × Val) → Bool
  | [], [] => true
  | (k1, v1) :: xs, (k2, v2) :: ys => k1 == k2 && valBeq v1 v2 && valKVBeq xs ys
  | _, _ => false

end

/-- Python truthiness of a JSON-like value (`bool(x)`). -/
def pyTruthy : Val → Bool
  | .null => false
  | .bool b => b
  | .int n => n != 0
  | .str s => !(s.isEmpty)
  | .list xs => !(xs.isEmpty)
  | .dict kvs => !(kvs.isEmpty)

/-- `dict.get(k)` on a mapping value: `none` when the key is absent or the
value is not a mapping. -/
def Val.getKey : Val → String → Option Val
  | .dict kvs, k => List.lookup k kvs
  | _, _ => none

/-- `dict.get(k)` with Python `None` for a missing key. -/
def Val.pyGet (v : Val) (k : String) : Val := (v.getKey k).getD .null

/-- character-level helpers (Lean core string functions defined by well-founded
recursion do not reduce in the kernel, so we use structural ones) -/

def lowerChar (c : Char) : Char :=
  if 'A' ≤ c && c ≤ 'Z' then Char.ofNat (c.toNat + 32) else c

/-- Python `str.lower()` restricted to ASCII, which covers every intrinsic
key used by the engine. -/
def lowerStr (s : String) : String := ⟨s.data.map lowerChar⟩

/-- Does the first list occur at the head of the second one? -/
def chPreAux : List Char → List Char → Bool
  | [], _ => true
  | _ :: _, [] => false
  | a :: as, b :: bs => a == b && chPreAux as bs

/-- Python substring containment `sub in s` on character lists
(needle first, haystack second). -/
def chHasSub (needle : List Char) : List Char → Bool
  | [] => needle.isEmpty
  | h :: t => chPreAux needle (h :: t) || chHasSub needle t

/-- Python `sub in s` for strings. -/
def strContains (s sub : String) : Bool := chHasSub sub.data s.data

/-- Python `s.startswith(p)`. -/
def strStarts (s p : String) : Bool := chPreAux p.data s.data

/-- Fuel-driven splitter behind `strSplitOn`; the fuel is an upper bound on
the number of characters consumed, so `length + 1` always suffices for a
non-empty separator. -/
def chSplitOn (sep : List Char) : Nat → List Char → List Char → List (List Char)
  | 0, acc, rest => [acc.reverse ++ rest]
  | _ + 1, acc, [] => [acc.reverse]
  | n + 1, acc, c :: cs =>
    if chPreAux sep (c :: cs) then
      acc.reverse :: chSplitOn sep n [] ((c :: cs).drop sep.length)
    else
      chSplitOn sep n (c :: acc) cs

/-- Python `s.split(sep)` for a non-empty separator. -/
def strSplitOn (s sep : String) : List String :=
  (chSplitOn sep.data (s.data.length + 1) [] s.data).map fun l => ⟨l⟩

/-- Fuel-driven replacer behind `strReplace`. -/
def chReplace (pat rep : List Char) : Nat → List Char → List Char
  | 0, s => s
  | _ + 1, [] => []
  | n + 1, c :: cs =>
    if chPreAux pat (c :: cs) then
      rep ++ chReplace pat rep n ((c :: cs).drop pat.length)
    else
      c :: chReplace pat rep n cs

/-- Python `s.replace(old, new)` for a non-empty pattern (every use in the
engine has a non-empty pattern). -/
def strReplace (s pat rep : String) : String :=
  if pat.isEmpty then s else ⟨chReplace pat.data rep.data (s.data.length + 1) s.data⟩

/-- `sep.join(xs)`. -/
def joinWith (sep : String) : List String → String
  | [] => ""
  | [x] => x
  | x :: y :: rest => x ++ sep ++ joinWith sep (y :: rest)

def natStrGo : Nat → Nat → List Char → List Char
  | 0, _, acc => acc
  | fuel + 1, n, acc =>
    if n < 10 then Char.ofNat (48 + n) :: acc
    else natStrGo fuel (n / 10) (Char.ofNat (48 + n % 10) :: acc)

/-- Decimal rendering of a natural number. -/
def natStr (n : Nat) : String := ⟨natStrGo (n + 1) n []⟩

/-- Decimal rendering of an integer (Python `str(int)`). -/
def intStr : Int → String
  | .ofNat n => natStr n
  | .negSucc m => "-" ++ natStr (m + 1)

def digitVal (c : Char) : Option Nat :=
  if '0' ≤ c && c ≤ '9' then some (c.toNat - 48) else none

def digitsToNat : List Char → Option Nat → Option Nat
  | [], acc => acc
  | c :: cs, acc =>
    match digitVal c, acc with
    | some d, some n => digitsToNat cs (some (n * 10 + d))
    | some d, none => digitsToNat cs (some d)
    | none, _ => none

/-- Python `int(s)` restricted to optionally signed decimal literals;
`none` models the `ValueError`. -/
def pyInt (s : String) : Option Int :=
  match s.data with
  | [] => none
  | '-' :: rest => (digitsToNat rest none).map fun n => -(n : Int)
  | '+' :: rest => (digitsToNat rest none).map fun n => (n : Int)
  | l => (digitsToNat l none).map fun n => (n : Int)

mutual

/-- Python `str()` / `repr()` of a JSON-like value, bounded by fuel; the
engine only stringifies scalars and small containers (`Fn::Join`,
`Fn::Equals`), for which any fuel above the tree size is exact. -/
def pyShowGo : Nat → Bool → Val → String
  | 0, _, _ => ""
  | n + 1, asRepr, v =>
    match v with
    | .null => "None"
    | .bool b => if b then "True" else "False"
    | .int i => intStr i
    | .str s => if asRepr then "'" ++ s ++ "'" else s
    | .list xs => "[" ++ joinWith ", " (pyShowListGo n xs) ++ "]"
    | .dict kvs => "\x7b" ++ joinWith ", " (pyShowKVGo n kvs) ++ "\x7d"

def pyShowListGo : Nat → List Val → List String
  | 0, _ => []
  | _ + 1, [] => []
  | n + 1, x :: xs => pyShowGo n true x :: pyShowListGo n xs

def pyShowKVGo : Nat → List (String × Val) → List String
  | 0, _ => []
  | _ + 1, [] => []
  | n + 1, (k, v) :: kvs => ("'" ++ k ++ "': " ++ pyShowGo n true v) :: pyShowKVGo n kvs

end

/-- Python `str(v)` with a fuel bound on the nesting depth explored. -/
def pyStrN (n : Nat) (v : Val) : String := pyShowGo n false v

/-- Python dict-key coercion used where the engine indexes a mapping with a
resolved value: strings index directly, other scalars through `str()`. -/
def refKey : Val → String
  | .str s => s
  | v => pyStrN 16 v

/-- Membership of a key in an association list (Python `k in d`). -/
def hasKeyL (l : List (String × Val)) (k : String) : Bool :=
  (List.lookup k l).isSome

/-- Python dict assignment `d[k] = v`: an existing key keeps its position and
gets the new value, a new key is appended. -/
def dictSet (l : List (String × Val)) (k : String) (v : Val) : List (String × Val) :=
  if hasKeyL l k then l.map (fun kv => if kv.1 == k then (k, v) else kv)
  else l ++ [(k, v)]

-- ---------------------------------------------------------------------------
-- check_not_found_exception / invoke_function  (template_deployer.py 214-237,
-- 841-877)
-- ---------------------------------------------------------------------------

/-- The not-found marker substrings of `check_not_found_exception`. -/
def notFoundMarkers : List String :=
  ["NoSuchBucket", "ResourceNotFound", "NoSuchEntity", "NotFoundException",
   "404", "not found", "not exist"]

/-- `check_not_found_exception(e, ...)`: true iff some marker occurs in
`str(e)`.  The `resource_type`, `resource` and `resource_status` arguments of
the Python function are only interpolated into a log message and do not
affect the result, so the embedding takes just the exception text. -/
def check_not_found_exception (e : String) : Bool :=
  !((notFoundMarkers.filter fun m => strContains e m).isEmpty)

/-- The outcome of the service call made inside `invoke_function`'s inner
`try`: success, a botocore `ParamValidationError` (carrying its message, the
optional `report`, and the outcome of the retried call with converted
parameters), or any other exception. -/
inductive CallResult (α : Type) where
  | ok (r : α)
  | paramValidation (msg : String) (report : Option String) (retry : Except String α)
  | failure (msg : String)

/-- The exception (if any) escaping `invoke_function`'s inner `try` block:
a `ParamValidationError` without a report is re-raised, one with a report is
replaced by the outcome of the single retry, and other failures pass
through. -/
def innerCallOutcome : CallResult α → Except String α
  | .ok r => .ok r
  | .failure m => .error m
  | .paramValidation m report retry =>
    match report with
    | none => .error m
    | some _ => retry

/-- `invoke_function(function, params, resource_type, func_details,
action_name, resource)`: on an exception from the (possibly retried) service
call, a `delete` action swallows not-found errors (returning Python `None`,
here `none`); every other failure propagates. -/
def invoke_function (action_name : String) (call : CallResult α) :
    Except String (Option α) :=
  match innerCallOutcome call with
  | .ok r => .ok (some r)
  | .error e =>
    if action_name == "delete" && check_not_found_exception e then .ok none
    else .error e

-- ---------------------------------------------------------------------------
-- Base64 (Fn::Base64 uses `base64.b64encode(to_bytes(value))`)
-- ---------------------------------------------------------------------------

/-- UTF-8 encoding of one scalar character value (code point below 0xD800 or
in 0xE000-0x10FFFF, which is what `Char` guarantees). -/
def utf8Char (n : Nat) : List Nat :=
  if n < 0x80 then [n]
  else if n < 0x800 then [0xC0 + n / 64, 0x80 + n % 64]
  else if n < 0x10000 then
    [0xE0 + n / 4096, 0x80 + (n / 64) % 64, 0x80 + n % 64]
  else
    [0xF0 + n / 262144, 0x80 + (n / 4096) % 64, 0x80 + (n / 64) % 64, 0x80 + n % 64]

/-- UTF-8 bytes of a string (`to_bytes` in the source). -/
def utf8Bytes (s : String) : List Nat :=
  s.data.foldr (fun c acc => utf8Char c.toNat ++ acc) []

def b64Chars : List Char :=
  "ABCDEFGHIJKLMNOPQRSTUVWXYZabcdefghijklmnopqrstuvwxyz0123456789+/".data

def b64Char (n : Nat) : Char := b64Chars.getD n '?'

/-- Standard base64 of a byte list (`base64.b64encode`). -/
def b64Encode : List Nat → String
  | [] => ""
  | [a] =>
    ⟨[b64Char (a / 4), b64Char (a % 4 * 16)]⟩ ++ "=="
  | [a, b] =>
    ⟨[b64Char (a / 4), b64Char (a % 4 * 16 + b / 16), b64Char (b % 16 * 4)]⟩ ++ "="
  | a :: b :: c :: rest =>
    ⟨[b64Char (a / 4), b64Char (a % 4 * 16 + b / 16),
      b64Char (b % 16 * 4 + c / 64), b64Char (c % 64)]⟩ ++ b64Encode rest

-- ---------------------------------------------------------------------------
-- Evaluator environment
-- ---------------------------------------------------------------------------

/-- Errors raised by the intrinsic evaluator: the recoverable
`DependencyNotYetSatisfied` and every other (fatal) Python exception. -/
inductive EvalErr where
  | dependencyNotYetSatisfied (resourceIds : String) (message : String)
  | fatal (message : String)

/-- The stack state and external collaborators the evaluator reads.
`stackName` and `resources` are the first two arguments that the Python code
threads unchanged through every recursive call; the remaining fields are
oracles for collaborators outside this module (the exports store, SSM and
Secrets Manager clients, `json.loads`, the `config` ports, and the
`GenericBaseModel` resource model classes). -/
structure Env where
  region : String
  accountId : String
  stackName : String
  resources : List (String × Val)
  exportsMap : List (String × Val)
  ssm : String → Option String
  ssmSecure : String → Option String
  getSecretValue : String → String → String → Option String
  jsonLoads : String → Option Val
  apigatewayPort : Nat
  hasModel : String → Bool
  getRefFromModel : Val → Option Val
  getAttFromModel : Val → String → Option Val
  fetchState : String → Option Val
  resolveSsmParamValue : String → Val → Option Val
  isUpdatableModel : String → Bool
  hasCreateTemplate : String → Bool

/-- `AWS_URL_SUFFIX` — the value is `amazonaws.com` in real AWS. -/
def AWS_URL_SUFFIX : String := "localhost.localstack.cloud"

-- ---------------------------------------------------------------------------
-- REGEX_OUTPUT_APIGATEWAY, executable matcher for
-- ^(https?://.+\.execute-api\.)(?:[^-]+-){2,3}\d\.(amazonaws\.com|SUFFIX)/?(.*)$
-- ---------------------------------------------------------------------------

def execApiMarker : List Char := ".execute-api.".data

/-- Consume `k` groups of `[^-]+-`. -/
def consumeRegionGroups : Nat → List Char → Option (List Char)
  | 0, rest => some rest
  | k + 1, rest =>
    let g := rest.takeWhile (fun c => c != '-')
    if g.isEmpty then none
    else
      match rest.drop g.length with
      | '-' :: tail => consumeRegionGroups k tail
      | _ => none

/-- After `k` region groups, match `\d\.` then the domain alternation then
`/?(.*)`; returns the host group and the path group. -/
def parseApigwTailK (k : Nat) (rest : List Char) : Option (String × String) :=
  match consumeRegionGroups k rest with
  | none => none
  | some tail =>
    match tail with
    | d :: dot :: tail2 =>
      if d.isDigit && dot == '.' then
        if chPreAux "amazonaws.com".data tail2 then
          let after := tail2.drop "amazonaws.com".data.length
          some ("amazonaws.com",
            ⟨match after with | '/' :: p => p | p => p⟩)
        else if chPreAux AWS_URL_SUFFIX.data tail2 then
          let after := tail2.drop AWS_URL_SUFFIX.data.length
          some (AWS_URL_SUFFIX,
            ⟨match after with | '/' :: p => p | p => p⟩)
        else none
      else none
    | _ => none

/-- Greedy `{2,3}` repetition: try three groups first, then two. -/
def parseApigwTail (rest : List Char) : Option (String × String) :=
  match parseApigwTailK 3 rest with
  | some r => some r
  | none => parseApigwTailK 2 rest

/-- All indices at which `.execute-api.` occurs. -/
def markerPositionsGo : List Char → Nat → List Nat
  | [], _ => []
  | c :: cs, i =>
    (if chPreAux execApiMarker (c :: cs) then [i] else []) ++ markerPositionsGo cs (i + 1)

/-- Try candidate split positions (greedy `.+`: last occurrence first);
returns `(group1, host, path)`. -/
def tryApigwAt (protoLen : Nat) (s : List Char) : List Nat → Option (String × String × String)
  | [] => none
  | i :: more =>
    match parseApigwTail ((s.drop protoLen).drop (i + execApiMarker.length)) with
    | some (host, path) =>
      some (⟨s.take (protoLen + i + execApiMarker.length)⟩, host, path)
    | none => tryApigwAt protoLen s more

/-- Executable form of `REGEX_OUTPUT_APIGATEWAY.match`. -/
def matchApigw (s : String) : Option (String × String × String) :=
  let protoLen : Option Nat :=
    if chPreAux "https://".data s.data then some 8
    else if chPreAux "http://".data s.data then some 7
    else none
  match protoLen with
  | none => none
  | some pl =>
    let body := s.data.drop pl
    let candidates := ((markerPositionsGo body 0).filter fun i => 1 ≤ i).reverse
    tryApigwAt pl s.data candidates

-- ---------------------------------------------------------------------------
-- REGEX_DYNAMIC_REF, executable matcher for  {{resolve:([^:]+):(.+)}}
-- (re.match: anchored at the start only)
-- ---------------------------------------------------------------------------

/-- Index of the last occurrence of two consecutive closing braces. -/
def lastDoubleBraceGo : List Char → Nat → Option Nat → Option Nat
  | [], _, best => best
  | c :: cs, i, best =>
    lastDoubleBraceGo cs (i + 1)
      (if c == Char.ofNat 125 && cs.head? == some (Char.ofNat 125) then some i else best)

/-- Executable form of `REGEX_DYNAMIC_REF.match`, returning the service name
and the reference key. -/
def matchDynamicRef (s : String) : Option (String × String) :=
  if chPreAux "\x7b\x7bresolve:".data s.data then
    let rest := s.data.drop 10
    let service := rest.takeWhile (fun c => c != ':')
    if service.isEmpty then none
    else
      match rest.drop service.length with
      | ':' :: body =>
        match lastDoubleBraceGo body 0 none with
        | some i => if 1 ≤ i then some (⟨service⟩, ⟨body.take i⟩) else none
        | none => none
      | _ => none
  else none

-- ---------------------------------------------------------------------------
-- Dynamic reference resolution and API-Gateway URL patch: the
-- "localstack specific patches" block of resolve_refs_recursively (436-508)
-- ---------------------------------------------------------------------------

/-- The `secretsmanager` arm of the dynamic-reference block: parse
`SECRET_ID[:SecretString:JSON_KEY[:VERSION_STAGE[:VERSION_ID]]]`, fetch the
secret, and extract the JSON key when one is given. -/
def resolveSecretRef (env : Env) (referenceKey : String) : Except EvalErr Val :=
  if strContains referenceKey "SecretString" then
    match strSplitOn referenceKey ":SecretString:" with
    | [] => .error (.fatal "IndexError: list index out of range")
    | [_] => .error (.fatal "IndexError: list index out of range")
    | p0 :: p1 :: _ =>
      let opts := (strSplitOn (p1 ++ "::") ":").take 3
      let jsonKey := opts.getD 0 ""
      let vStage := opts.getD 1 ""
      let vId := opts.getD 2 ""
      match env.getSecretValue p0 vStage vId with
      | none => .error (.fatal ("secret not found: " ++ p0))
      | some secretString =>
        if jsonKey.isEmpty then .ok (.str secretString)
        else
          match env.jsonLoads secretString with
          | none => .error (.fatal "json decode error")
          | some (.dict js) =>
            match List.lookup jsonKey js with
            | some v => .ok v
            | none =>
              .error (.dependencyNotYetSatisfied p0
                ("Key " ++ jsonKey ++ " is not yet available in secret " ++ p0 ++ "."))
          | some _ => .error (.fatal "TypeError: argument of type is not iterable")
  else
    match env.getSecretValue referenceKey "" "" with
    | none => .error (.fatal ("secret not found: " ++ referenceKey))
    | some secretString => .ok (.str secretString)

/-- The post-processing applied by `resolve_refs_recursively` to a resolved
string: first the API-Gateway URL rewrite (inserting the local service
port), then basic `{{resolve:...}}` dynamic references; non-strings and
non-matching strings pass through. -/
def postProcess (env : Env) (result : Val) : Except EvalErr Val :=
  match result with
  | .str s =>
    match matchApigw s with
    | some (pre, host, path) =>
      .ok (.str (pre ++ host ++ ":" ++ natStr env.apigatewayPort ++ "/" ++ path))
    | none =>
      match matchDynamicRef s with
      | some (service, key) =>
        if service == "ssm" then
          match env.ssm key with
          | some v => .ok (.str v)
          | none => .error (.fatal ("ssm parameter not found: " ++ key))
        else if service == "ssm-secure" then
          match env.ssmSecure key with
          | some v => .ok (.str v)
          | none => .error (.fatal ("ssm parameter not found: " ++ key))
        else if service == "secretsmanager" then
          resolveSecretRef env key
        else
          .ok (.str s)
      | none => .ok (.str s)
  | v => .ok v

-- ---------------------------------------------------------------------------
-- Resource detail helpers (template_deployer.py 130-132, 173-339)
-- ---------------------------------------------------------------------------

/-- Python `d[k]`: the value, or a `KeyError`. -/
def valIndex (v : Val) (k : String) : Except EvalErr Val :=
  match v.getKey k with
  | some x => .ok x
  | none => .error (.fatal ("KeyError: " ++ k))

/-- `dict.get(k, default)`. -/
def pyGetD (v : Val) (k : String) (dflt : Val) : Val := (v.getKey k).getD dflt

/-- Python `a or b` on values. -/
def pyOrV (a b : Val) : Val := if pyTruthy a then a else b

/-- `first_char_to_lower` (strings utility used for attrib lookups). -/
def first_char_to_lower (s : String) : String :=
  match s.data with
  | [] => ""
  | c :: cs => ⟨lowerChar c :: cs⟩

/-- `get_attr_from_model_instance(resource, attrib, resource_type, ...)`:
look up the model class in the registry and delegate to its
`get_cfn_attribute`; a missing class or any exception yields Python `None`
(`none` here). -/
def get_attr_from_model_instance (env : Env) (resource : Val) (attrib : String)
    (resource_type : String) : Option Val :=
  if env.hasModel resource_type then env.getAttFromModel resource attrib else none

/-- `get_ref_from_model(resources, logical_resource_id)`: instantiate the
model class and return its `get_ref()`; without a model class the function
logs an error and returns `None` (`Val.null`). -/
def get_ref_from_model (env : Env) (logical_id : String) : Except EvalErr Val := do
  match List.lookup logical_id env.resources with
  | none => .error (.fatal ("KeyError: " ++ logical_id))
  | some resource => do
    let rtype ← valIndex resource "Type"
    if env.hasModel (refKey rtype) then
      .ok ((env.getRefFromModel resource).getD .null)
    else
      .ok .null

/-- `retrieve_resource_details(resource_id, resource_status, resources,
stack_name)`: fetch live state through the resource model instance
(`env.fetchState`, whose `none` also covers the exceptions the Python `try`
converts into `return None`), fall back to the raw `Properties` for the
reserved `Parameter` type, and return `None` otherwise.  A resource missing
from the map fails on `get_resource_type({})`, and missing `Properties`
raises, both before the `try`. -/
def retrieve_resource_details (env : Env) (resource_id : String) :
    Except EvalErr (Option Val) := do
  let resource := (List.lookup resource_id env.resources).getD (.dict [])
  let rtypeV ← valIndex resource "Type"
  let rtype := refKey rtypeV
  match resource.getKey "Properties" with
  | none =>
    .error (.fatal ("Unable to find properties for resource " ++ resource_id))
  | some .null =>
    .error (.fatal ("Unable to find properties for resource " ++ resource_id))
  | some resourceProps =>
    if env.hasModel rtype then
      .ok (env.fetchState resource_id)
    else if rtype == "Parameter" then
      .ok (some resourceProps)
    else
      .ok none

/-- The "extract resource specific attributes" second half of
`extract_resource_attribute` (the `GenericBaseModel` instance branch does not
arise here because `retrieve_resource_details` returns plain state
dictionaries in this embedding). -/
def extract_resource_attribute (env : Env) (resource_type : String)
    (resource_state0 : Val) (attrib : String) (resource_id : String)
    (resource0 : Val) : Except EvalErr Val := do
  let isRefAttribute := attrib == "PhysicalResourceId" || attrib == "Ref"
  let isRefAttrOrArn := isRefAttribute || attrib == "Arn"
  let resource ←
    if !(pyTruthy resource0) && !env.resources.isEmpty then
      match List.lookup resource_id env.resources with
      | some r => Except.ok r
      | none => Except.error (.fatal ("KeyError: " ++ resource_id))
    else
      Except.ok (if pyTruthy resource0 then resource0 else .dict [])
  let resourceState ←
    if pyTruthy resource_state0 then Except.ok resource_state0
    else do
      let det ← retrieve_resource_details env resource_id
      match det with
      | some s =>
        if pyTruthy s then Except.ok s
        else
          Except.error (.dependencyNotYetSatisfied resource_id
            ("Unable to fetch details for resource " ++ resource_id))
      | none =>
        Except.error (.dependencyNotYetSatisfied resource_id
          ("Unable to fetch details for resource " ++ resource_id))
  let resourceProps := pyGetD resource "Properties" (.dict [])
  if resource_type == "Parameter" then do
    let paramValue0 :=
      pyGetD resourceProps "Value"
        (pyGetD resource "Value" ((pyGetD resourceProps "Properties" (.dict [])).pyGet "Value"))
    let paramValueType := pyOrV (resourceProps.pyGet "ParameterType") (.str "")
    let paramValue ←
      match paramValueType with
      | .str t =>
        if strStarts t "AWS::SSM::Parameter::Value" then
          match env.resolveSsmParamValue t (resourceProps.pyGet "ParameterValue") with
          | some v => Except.ok v
          | none => Except.error (.fatal "resolve_ssm_parameter_value failed")
        else Except.ok paramValue0
      | _ => Except.error (.fatal "AttributeError: startswith")
    let result : Val :=
      if isRefAttrOrArn then paramValue
      else match paramValue with
        | .dict _ => paramValue.pyGet attrib
        | _ => .null
    match result with
    | .null => .ok (.str "")
    | r => .ok r
  else
    let attributeLower := first_char_to_lower attrib
    let result0 :=
      pyOrV (resourceState.pyGet attrib) (resourceState.pyGet attributeLower)
    let result1 :=
      match result0 with
      | .null =>
        let fromProps :=
          pyOrV (resourceProps.pyGet attrib) (resourceProps.pyGet attributeLower)
        (match fromProps with
         | .null =>
           (get_attr_from_model_instance env resource attrib resource_type).getD .null
         | r => r)
      | r => r
    let result2 :=
      if isRefAttribute then
        (["Id", "PhysicalResourceId", "Ref"]).foldl
          (fun r attr =>
            match r with
            | .null => pyOrV (pyOrV r (resourceState.pyGet attr)) (resource.pyGet attr)
            | _ => r)
          result1
      else result1
    .ok result2

/-- The tail of `resolve_ref` (lines 400-430): fetch resource details and
extract the requested attrib; an unfetchable resource raises
`DependencyNotYetSatisfied`. -/
def resolveRefTail (env : Env) (ref attrib : String) : Except EvalErr Val := do
  let det ← retrieve_resource_details env ref
  let resourceNew ←
    match det with
    | some s =>
      if pyTruthy s then Except.ok s
      else
        Except.error (.dependencyNotYetSatisfied ref
          ("Unable to fetch details for resource " ++ ref))
    | none =>
      Except.error (.dependencyNotYetSatisfied ref
        ("Unable to fetch details for resource " ++ ref))
  match List.lookup ref env.resources with
  | none => .error (.fatal "TypeError: NoneType is not subscriptable")
  | some resource => do
    let rtype ← valIndex resource "Type"
    extract_resource_attribute env (refKey rtype) resourceNew attrib ref resource

/-- `PLACEHOLDER_AWS_NO_VALUE`.  Modelled from the spec: the sentinel string
that `Ref AWS::NoValue` resolves to (`deployment_utils` is outside the given
sources); only its identity matters to the engine. -/
def PLACEHOLDER_AWS_NO_VALUE : Val := .str "__aws_no_value__"

/-- `exports.get(import_value_key) or {}` of the `Fn::ImportValue`
branch. -/
def exportEntry (env : Env) (key : String) : Val :=
  match List.lookup key env.exportsMap with
  | some v => if pyTruthy v then v else Val.dict []
  | none => Val.dict []

/-- The static `Fn::Sub` references always made available. -/
def STATIC_REFS : List String :=
  ["AWS::Region", "AWS::Partition", "AWS::StackName", "AWS::AccountId"]

-- ---------------------------------------------------------------------------
-- The intrinsic evaluator (template_deployer.py 342-735), as one mutual
-- bundle of fuel-indexed functions.  Python bounds this recursion with the
-- `prevent_stack_overflow` decorator, documented to return the original
-- value when the depth cap is exceeded; the fuel plays that role (and is
-- also consumed by the structural traversal helpers, which is harmless
-- because every theorem fixes an explicit fuel).
-- ---------------------------------------------------------------------------

mutual

/-- `resolve_refs_recursively(stack_name, resources, value)`: the public
entry point; evaluates via `_resolve_refs_recursively` and then applies the
LocalStack-specific string patches (`postProcess`). -/
def resolve_refs_recursively (env : Env) : Nat → Val → Except EvalErr Val
  | 0, value => .ok value
  | n + 1, value => do
    let result ← res_underscore env n value
    postProcess env result

/-- `_resolve_refs_recursively(stack_name, resources, value)`: the intrinsic
dispatch. -/
def res_underscore (env : Env) : Nat → Val → Except EvalErr Val
  | 0, value => .ok value
  | n + 1, value =>
    match value with
    | .dict [(k, arg)] =>
      let stripped := (strSplitOn (lowerStr k) "::").getLastD ""
      if k == "Ref" then do
        let r ← resolve_ref env n (refKey arg) "Ref"
        match r with
        | .null =>
          .error (.dependencyNotYetSatisfied (refKey arg)
            ("Unable to resolve Ref for resource " ++ refKey arg ++ " (yet)"))
        | rv => resolve_refs_recursively env n rv
      else if stripped == "getatt" then do
        let (lidV, attrV) ←
          match arg with
          | .str s =>
            (match strSplitOn s "." with
             | a :: b :: _ => Except.ok (Val.str a, Val.str b)
             | _ => Except.error (EvalErr.fatal "IndexError: list index out of range"))
          | .list (a :: b :: _) => Except.ok (a, b)
          | _ => Except.error (EvalErr.fatal "IndexError: list index out of range")
        let attrResolved ← resolve_refs_recursively env n attrV
        let lid := refKey lidV
        match List.lookup lid env.resources with
        | none => .error (.fatal "TypeError: NoneType is not subscriptable")
        | some resource => do
          let rtype ← valIndex resource "Type"
          match get_attr_from_model_instance env resource (refKey attrResolved) (refKey rtype) with
          | none => .error (.dependencyNotYetSatisfied lid "")
          | some rv => .ok rv
      else if stripped == "join" then
        match arg with
        | .list (sepV :: itemsV :: _) => do
          let items ←
            match itemsV with
            | .list items => Except.ok items
            | .dict kvs => Except.ok (kvs.map fun kv => Val.str kv.1)
            | .str s => Except.ok (s.data.map fun c => Val.str ⟨[c]⟩)
            | _ => Except.error (EvalErr.fatal "TypeError: not iterable")
          let rs ← resolveList env n items
          if rs.any (fun v => match v with | .null => true | _ => false) then
            .error (.fatal "Cannot resolve CF fn::Join due to null values")
          else
            match sepV with
            | .str sep => .ok (.str (joinWith sep (rs.map fun v => pyStrN 64 v)))
            | _ => .error (.fatal "AttributeError: join")
        | _ => .error (.fatal "IndexError: list index out of range")
      else if stripped == "sub" then do
        let (templateV, mapV) ←
          match arg with
          | .list (a :: b :: _) => Except.ok (a, b)
          | .list _ => Except.error (EvalErr.fatal "IndexError: list index out of range")
          | v => Except.ok (v, Val.dict [])
        match templateV, mapV with
        | .str template, .dict userMap => do
          let mapping := STATIC_REFS.foldl
            (fun m r => dictSet m r (.dict [("Ref", .str r)])) userMap
          let substituted ← subFold env n template mapping
          let final ← placeholdersScan env n substituted.data
          .ok (.str final)
        | _, _ => .error (.fatal "TypeError: Fn::Sub arguments")
      else if stripped == "findinmap" then
        match arg with
        | .list (map0 :: attr0 :: rest) => do
          let attr ← resolve_refs_recursively env n attr0
          let selectedMap ←
            match map0 with
            | .dict kvs =>
              if hasKeyL kvs "Ref" then
                resolve_ref env n (refKey ((Val.dict kvs).pyGet "Ref")) "Ref"
              else Except.ok map0
            | m => Except.ok m
          let result ← resolve_ref env n (refKey selectedMap) (refKey attr)
          if !(pyTruthy result) then
            .error (.fatal "Cannot resolve fn::FindInMap")
          else do
            let key0 ←
              match rest with
              | k :: _ => Except.ok k
              | [] => Except.error (EvalErr.fatal "IndexError: list index out of range")
            let key ←
              match key0 with
              | .str s => Except.ok (Val.str s)
              | k => resolve_refs_recursively env n k
            match result with
            | .dict _ => .ok (result.pyGet (refKey key))
            | _ => .error (.fatal "AttributeError: get")
        | _ => .error (.fatal "IndexError: list index out of range")
      else if stripped == "importvalue" then do
        let keyV ← resolve_refs_recursively env n arg
        let importKey := refKey keyV
        let stackExport := exportEntry env importKey
        if !(pyTruthy (stackExport.pyGet "Value")) then .ok .null
        else .ok (stackExport.pyGet "Value")
      else if stripped == "if" then
        match arg with
        | .list [condV, o1, o2] => do
          let c ← evaluate_condition env n condV
          resolve_refs_recursively env n (if pyTruthy c then o1 else o2)
        | _ => .error (.fatal "ValueError: unpack")
      else if stripped == "condition" then
        evaluate_condition env n arg
      else if stripped == "not" then
        match arg with
        | .list (c0 :: _) => do
          let c ← resolve_refs_recursively env n c0
          .ok (.bool (!(pyTruthy c)))
        | _ => .error (.fatal "IndexError: list index out of range")
      else if stripped == "and" || stripped == "or" then
        match arg with
        | .list conds => do
          let rs ← resolveList env n conds
          if stripped == "and" then .ok (.bool (rs.all pyTruthy))
          else .ok (.bool (rs.any pyTruthy))
        | _ => .error (.fatal "TypeError: not iterable")
      else if stripped == "equals" then
        match arg with
        | .list [a0, b0] => do
          let a ← resolve_refs_recursively env n a0
          let b ← resolve_refs_recursively env n b0
          .ok (.bool (pyStrN 64 a == pyStrN 64 b))
        | _ => .error (.fatal "ValueError: unpack")
      else if stripped == "select" then
        match arg with
        | .list [idx0, vals0] => do
          let idx ← resolve_refs_recursively env n idx0
          let vals ← resolve_refs_recursively env n vals0
          let idxInt ←
            match idx with
            | .int i => Except.ok i
            | .str s =>
              (match pyInt s with
               | some i => Except.ok i
               | none => Except.error (EvalErr.fatal "ValueError: invalid literal for int"))
            | _ => Except.error (EvalErr.fatal "TypeError: indices must be integers")
          match vals with
          | .list xs =>
            let j : Int := if idxInt < 0 then idxInt + xs.length else idxInt
            if 0 ≤ j && j < xs.length then .ok (xs.getD j.toNat .null)
            else .error (.fatal "IndexError: list index out of range")
          | .dict _ =>
            (match vals.getKey (refKey idx) with
             | some v => .ok v
             | none => .error (.fatal ("KeyError: " ++ refKey idx)))
          | _ => .error (.fatal "TypeError: not subscriptable")
        | _ => .error (.fatal "ValueError: unpack")
      else if stripped == "split" then
        match arg with
        | .list [d0, s0] => do
          let d ← resolve_refs_recursively env n d0
          let s ← resolve_refs_recursively env n s0
          match d, s with
          | .str ds, .str ss =>
            if ds.isEmpty then .error (.fatal "ValueError: empty separator")
            else .ok (.list ((strSplitOn ss ds).map fun p => Val.str p))
          | _, _ => .error (.fatal "TypeError: split")
        | _ => .error (.fatal "ValueError: unpack")
      else if stripped == "getazs" then do
        let raw ← valIndex value "Fn::GetAZs"
        let regionV ← resolve_refs_recursively env n raw
        let region := if pyTruthy regionV then pyStrN 64 regionV else env.region
        .ok (.list (["a", "b", "c", "d"].map fun az => Val.str (region ++ az)))
      else if stripped == "base64" then do
        let v ← resolve_refs_recursively env n arg
        match v with
        | .str s => .ok (.str (b64Encode (utf8Bytes s)))
        | _ => .error (.fatal "TypeError: to_bytes")
      else do
        let kvs2 ← resolveEntries env n [(k, arg)]
        .ok (.dict kvs2)
    | .dict kvs => do
      let kvs2 ← resolveEntries env n kvs
      .ok (.dict kvs2)
    | .list [Val.list [i0, i1]] =>
      if strStarts (lowerStr (pyStrN 64 i0)) "fn::" then
        match i0 with
        | .str key => resolve_refs_recursively env n (.dict [(key, i1)])
        | _ => .error (.fatal "TypeError: unhashable key")
      else do
        let xs2 ← resolveList env n [Val.list [i0, i1]]
        .ok (.list xs2)
    | .list xs => do
      let xs2 ← resolveList env n xs
      .ok (.list xs2)
    | v => .ok v

/-- `resolve_ref(stack_name, resources, ref, attrib)`. -/
def resolve_ref (env : Env) : Nat → String → String → Except EvalErr Val
  | 0, _, _ => .error (.fatal "maximum recursion depth exceeded")
  | n + 1, ref, attrib =>
    if ref == "AWS::Region" then .ok (.str env.region)
    else if ref == "AWS::Partition" then .ok (.str "aws")
    else if ref == "AWS::StackName" then .ok (.str env.stackName)
    else if ref == "AWS::StackId" then .ok (.str env.stackName)
    else if ref == "AWS::AccountId" then .ok (.str env.accountId)
    else if ref == "AWS::NoValue" then .ok PLACEHOLDER_AWS_NO_VALUE
    else if ref == "AWS::NotificationARNs" then .ok (.dict [])
    else if ref == "AWS::URLSuffix" then .ok (.str AWS_URL_SUFFIX)
    else if attrib == "Ref" then
      match List.lookup ref env.resources with
      | none => .error (.fatal "Should be detected earlier")
      | some resource => do
        let rtype ← valIndex resource "Type"
        if valBeq rtype (.str "Parameter") then do
          let props ← valIndex resource "Properties"
          valIndex props "Value"
        else do
          let _ ← resolve_refs_recursively env n resource
          get_ref_from_model env ref
    else if attrib == "Arn" then .error (.fatal "invalid")
    else
      match List.lookup ref env.resources with
      | some resource =>
        if pyTruthy resource then
          match resource.getKey attrib with
          | some (.str s) => .ok (.str s)
          | some (.int i) => .ok (.int i)
          | some (.bool b) => .ok (.bool b)
          | some (.dict kvs) => .ok (.dict kvs)
          | _ => resolveRefTail env ref attrib
        else resolveRefTail env ref attrib
      | none => resolveRefTail env ref attrib

/-- `evaluate_condition(stack_name, resources, condition)`. -/
def evaluate_condition (env : Env) : Nat → Val → Except EvalErr Val
  | 0, _ => .error (.fatal "maximum recursion depth exceeded")
  | n + 1, condition => do
    let c1 ← resolve_refs_recursively env n condition
    let c2 ← resolve_ref env n (refKey c1) "Ref"
    resolve_refs_recursively env n c2

/-- Element-wise recursion over a list value (`value[i] = resolve(...)`). -/
def resolveList (env : Env) : Nat → List Val → Except EvalErr (List Val)
  | 0, _ => .error (.fatal "maximum recursion depth exceeded")
  | _ + 1, [] => .ok []
  | n + 1, x :: xs => do
    let y ← resolve_refs_recursively env n x
    let ys ← resolveList env n xs
    .ok (y :: ys)

/-- Entry-wise recursion over a mapping value (`value[key] = resolve(...)`). -/
def resolveEntries (env : Env) : Nat → List (String × Val) →
    Except EvalErr (List (String × Val))
  | 0, _ => .error (.fatal "maximum recursion depth exceeded")
  | _ + 1, [] => .ok []
  | n + 1, (k, v) :: kvs => do
    let v2 ← resolve_refs_recursively env n v
    let rest ← resolveEntries env n kvs
    .ok ((k, v2) :: rest)

/-- The `Fn::Sub` substitution loop: resolve each mapping entry and replace
its `$\x7bkey\x7d` occurrences in order. -/
def subFold (env : Env) : Nat → String → List (String × Val) → Except EvalErr String
  | 0, _, _ => .error (.fatal "maximum recursion depth exceeded")
  | _ + 1, result, [] => .ok result
  | n + 1, result, (k, v) :: rest => do
    let rv ← resolve_refs_recursively env n v
    match rv with
    | .str s => subFold env n (strReplace result ("$\x7b" ++ k ++ "\x7d") s) rest
    | _ => .error (.fatal "TypeError: replace argument must be str")

/-- The `re.sub` scan of `resolve_placeholders_in_string`: find each
`$\x7b...\x7d` span and substitute `placeholderReplace`. -/
def placeholdersScan (env : Env) : Nat → List Char → Except EvalErr String
  | 0, _ => .error (.fatal "maximum recursion depth exceeded")
  | _ + 1, [] => .ok ""
  | n + 1, c :: cs =>
    if c == '$' && cs.head? == some (Char.ofNat 123) then
      let inner := (cs.drop 1).takeWhile (fun ch => ch != Char.ofNat 125)
      let after := (cs.drop 1).drop inner.length
      match after with
      | _ :: rest =>
        if inner.isEmpty then do
          let tailS ← placeholdersScan env n cs
          .ok (⟨[c]⟩ ++ tailS)
        else do
          let rep ← placeholderReplace env n ⟨inner⟩
          let tailS ← placeholdersScan env n rest
          .ok (rep ++ tailS)
      | [] => do
        let tailS ← placeholdersScan env n cs
        .ok (⟨[c]⟩ ++ tailS)
    else do
      let tailS ← placeholdersScan env n cs
      .ok (⟨[c]⟩ ++ tailS)

/-- The `_replace` callback of `resolve_placeholders_in_string`: dotted
variables via `Fn::GetAtt` semantics, known logical ids via `Ref`, anything
else left verbatim. -/
def placeholderReplace (env : Env) : Nat → String → Except EvalErr String
  | 0, _ => .error (.fatal "maximum recursion depth exceeded")
  | n + 1, refExpression =>
    let parts := strSplitOn refExpression "."
    if 2 ≤ parts.length then
      let resourceName := parts.getD 0 ""
      let attrName := joinWith "." (parts.drop 1)
      match List.lookup resourceName env.resources with
      | none => .error (.fatal ("KeyError: " ++ resourceName))
      | some resource => do
        let rtype ← valIndex resource "Type"
        match get_attr_from_model_instance env resource attrName (refKey rtype) with
        | none =>
          .error (.dependencyNotYetSatisfied resourceName
            ("Unable to resolve attrib ref " ++ refExpression))
        | some rv =>
          .ok (match rv with | .str s => s | v => pyStrN 64 v)
    else if parts.length == 1 && hasKeyL env.resources refExpression then do
      let r ← resolve_ref env n refExpression "Ref"
      match r with
      | .null =>
        .error (.dependencyNotYetSatisfied refExpression
          ("Unable to resolve attrib ref " ++ refExpression))
      | rv => do
        let rv2 ← resolve_refs_recursively env n rv
        .ok (match rv2 with | .null => "" | .str s => s | v => pyStrN 64 v)
    else
      .ok ("$\x7b" ++ refExpression ++ "\x7d")

end

/-- `FALSE_STRINGS`.  Modelled from the spec: the constants module (not among
the given sources) lists the strings treated as boolean false. -/
def FALSE_STRINGS : List String := ["0", "false", "False"]

/-- `is_none_or_empty_value`.  Modelled from the spec: `deployment_utils`
(not among the given sources) treats `None`, the empty string and the
`AWS::NoValue` placeholder as empty. -/
def is_none_or_empty_value (v : Val) : Bool :=
  match v with
  | .null => true
  | .str s => s.isEmpty || valBeq v PLACEHOLDER_AWS_NO_VALUE
  | _ => false

/-- `evaluate_resource_condition(stack_name, resources, resource)`. -/
def evaluate_resource_condition (env : Env) (fuel : Nat) (resource : Val) :
    Except EvalErr Bool := do
  let condition := resource.pyGet "Condition"
  if pyTruthy condition then do
    let c ← evaluate_condition env fuel condition
    if valBeq c (.bool false) || FALSE_STRINGS.any (fun s => valBeq c (.str s))
        || is_none_or_empty_value c then
      .ok false
    else .ok true
  else .ok true

-- ---------------------------------------------------------------------------
-- Change planner (template_deployer.py 1224-1366)
-- ---------------------------------------------------------------------------

/-- The `ResourceChange` payload built by `get_change_config`, together with
the scratch `_deployed` attribute that `prepare_should_deploy_change` caches
on it (absent = `none`).  The constant `"Type": "Resource"` wrapper and the
empty `Scope`/`Details` lists carry no information and are left out. -/
structure ResourceChange where
  action : String
  logicalResourceId : Val
  physicalResourceId : Val
  resourceType : Val
  replacement : Option String
  deployed : Option Bool := none

/-- `get_change_config(action, resource, ...)`: `resource["Type"]` is a
direct index, so a resource without `Type` raises. -/
def get_change_config (action : String) (resource : Val) :
    Except EvalErr ResourceChange := do
  let rtype ← valIndex resource "Type"
  .ok { action := action
        logicalResourceId := resource.pyGet "LogicalResourceId"
        physicalResourceId := resource.pyGet "PhysicalResourceId"
        resourceType := rtype
        replacement := if action == "Modify" then some "False" else none }

/-- Equality of two key collections as sets (Python `set(a) == set(b)`). -/
def sameKeySet (a b : List String) : Bool :=
  a.all (fun k => b.contains k) && b.all (fun k => a.contains k)

/-- `TemplateDeployer.resource_config_differs(resource_new)`:
compares the property key sets (without `LogicalResourceId` /
`PhysicalResourceId`) and the per-key values against the deployer stack's
resource, and reports a difference when the resource's previous status
contains `DELETE`.  The Python function returns `None` (falsy) when nothing
differs. -/
def resource_config_differs (selfResources resourceStates : List (String × Val))
    (resource_new : Val) : Except EvalErr Bool := do
  let ridV ← valIndex resource_new "LogicalResourceId"
  let rid := refKey ridV
  let resourceOld ←
    match List.lookup rid selfResources with
    | some r => Except.ok r
    | none => Except.error (.fatal ("KeyError: " ++ rid))
  let propsOld ← valIndex resourceOld "Properties"
  let propsNew ← valIndex resource_new "Properties"
  match propsOld, propsNew with
  | .dict po, .dict pn =>
    let ignored : List String := ["LogicalResourceId", "PhysicalResourceId"]
    let oldKeys := (po.map Prod.fst).filter (fun k => !(ignored.contains k))
    let newKeys := (pn.map Prod.fst).filter (fun k => !(ignored.contains k))
    if !(sameKeySet oldKeys newKeys) then .ok true
    else if oldKeys.any
        (fun k => !(valBeq ((Val.dict po).pyGet k) ((Val.dict pn).pyGet k))) then
      .ok true
    else
      let oldStatus := pyOrV ((List.lookup rid resourceStates).getD .null) (.dict [])
      let previousState :=
        pyOrV (pyOrV (oldStatus.pyGet "PreviousResourceStatus")
          (oldStatus.pyGet "ResourceStatus")) (.str "")
      match previousState with
      | .str s => .ok (pyTruthy oldStatus && strContains s "DELETE")
      | _ => .error (.fatal "TypeError: argument of type is not iterable")
  | _, _ => .error (.fatal "TypeError: Properties")

/-- `item["Properties"] = item.get("Properties", \x7b\x7d)`: the default each
emitted change applies to its resource dict. -/
def ensureProps (resource : Val) : Val :=
  match resource with
  | .dict kvs => .dict (dictSet kvs "Properties" (pyGetD resource "Properties" (.dict [])))
  | v => v

/-- The inner loop of `construct_changes` for one `(action, items)` group:
default the `Properties`, filter unchanged modifies when requested, and emit
a change config per kept item. -/
def emitGroup (selfResources resourceStates : List (String × Val))
    (filterUnchanged : Bool) (action : String) :
    List Val → Except EvalErr (List ResourceChange)
  | [] => .ok []
  | item :: rest => do
    let item2 := ensureProps item
    let keep ←
      if !filterUnchanged || action != "Modify" then Except.ok true
      else resource_config_differs selfResources resourceStates item2
    if keep then do
      let c ← get_change_config action item2
      let tailChanges ← emitGroup selfResources resourceStates filterUnchanged action rest
      .ok (c :: tailChanges)
    else
      emitGroup selfResources resourceStates filterUnchanged action rest

/-- `TemplateDeployer.construct_changes(existing_stack, new_stack,
initialize, change_set_id, append_to_changeset, filter_unchanged_resources)`.
`change_set_id` is only stored in a commented-out field and
`append_to_changeset` only copies the result into the change set object, so
neither affects the returned list. -/
def construct_changes (selfResources resourceStates : List (String × Val))
    (oldResources newResources : List (String × Val))
    (initFlag filterUnchanged : Bool) : Except EvalErr (List ResourceChange) := do
  let deletes := (oldResources.filter fun kv => !(hasKeyL newResources kv.1)).map Prod.snd
  let adds := (newResources.filter fun kv => initFlag || !(hasKeyL oldResources kv.1)).map Prod.snd
  let modifies :=
    (newResources.filter fun kv => !initFlag && hasKeyL oldResources kv.1).map Prod.snd
  let r ← emitGroup selfResources resourceStates filterUnchanged "Remove" deletes
  let a ← emitGroup selfResources resourceStates filterUnchanged "Add" adds
  let m ← emitGroup selfResources resourceStates filterUnchanged "Modify" modifies
  .ok (r ++ a ++ m)

/-- Change-config emission for a whole group at once (no filtering). -/
def changesOf (action : String) : List Val → Except EvalErr (List ResourceChange)
  | [] => .ok []
  | item :: rest => do
    let c ← get_change_config action (ensureProps item)
    let cs ← changesOf action rest
    .ok (c :: cs)

/-- The Change Planner as the claim states it: a `Remove` change for each
resource in old and not in new; an `Add` change for each resource in new and
not in old, or for every new resource when `initialize`; a `Modify` change
for each resource present in both templates, only when not `initialize`; in
the fixed order Remove, Add, Modify. -/
def construct_changes_claim (oldResources newResources : List (String × Val))
    (initFlag : Bool) : Except EvalErr (List ResourceChange) := do
  let r ← changesOf "Remove"
    ((oldResources.filter fun kv => !(hasKeyL newResources kv.1)).map Prod.snd)
  let a ← changesOf "Add"
    ((newResources.filter fun kv => initFlag || !(hasKeyL oldResources kv.1)).map Prod.snd)
  let m ←
    if initFlag then pure []
    else
      changesOf "Modify"
        ((newResources.filter fun kv => hasKeyL oldResources kv.1).map Prod.snd)
  .ok (r ++ a ++ m)

-- ---------------------------------------------------------------------------
-- Parameter merging (template_deployer.py 1282-1330)
-- ---------------------------------------------------------------------------

/-- `TemplateDeployer.resolve_param(logical_id, param_type, default_value)`:
only the SSM string parameter type resolves, through
`resolve_ssm_parameter_value` (an external collaborator, passed as the
`resolveSsm` oracle); `logical_id` is unused by the source. -/
def resolve_param (resolveSsm : String → Val → Option Val) (paramType : Val)
    (defaultValue : Val) : Option Val :=
  if valBeq paramType (.str "AWS::SSM::Parameter::Value<String>") then
    resolveSsm "AWS::SSM::Parameter::Value<String>" defaultValue
  else none

/-- The dict comprehension `\x7bp["ParameterKey"]: p for p in ...\x7d`. -/
def buildParamDictGo (acc : List (String × Val)) :
    List Val → Except EvalErr (List (String × Val))
  | [] => .ok acc
  | p :: rest => do
    let kV ← valIndex p "ParameterKey"
    buildParamDictGo (dictSet acc (refKey kV) p) rest

/-- One iteration of the template-parameter overlay loop of
`apply_parameter_changes`: `ParameterValue` is the template `Default` when
one is present (`default is None` is the test, so any non-null `Default`
wins), and otherwise the whole previous parameter entry
(`provided_param_value`, a dict) or `None`. -/
def overlayOne (resolveSsm : String → Val → Option Val)
    (params : List (String × Val)) (lid : String) (value : Val) :
    List (String × Val) :=
  let dflt := value.pyGet "Default"
  let provided := (List.lookup lid params).getD .null
  let pv := match dflt with | .null => provided | d => d
  let param :=
    match dflt with
    | .null => Val.dict [("ParameterKey", .str lid), ("ParameterValue", pv)]
    | d =>
      match resolve_param resolveSsm (value.pyGet "Type") d with
      | some rv =>
        Val.dict [("ParameterKey", .str lid), ("ParameterValue", pv), ("ResolvedValue", rv)]
      | none => Val.dict [("ParameterKey", .str lid), ("ParameterValue", pv)]
  dictSet params lid param

/-- `_update_params(params_list)`: overwrite each entry unless its
`UsePreviousValue` is truthy. -/
def updateParams (params : List (String × Val)) :
    List Val → Except EvalErr (List (String × Val))
  | [] => .ok params
  | p :: rest =>
    if pyTruthy (p.pyGet "UsePreviousValue") then updateParams params rest
    else do
      let kV ← valIndex p "ParameterKey"
      updateParams (dictSet params (refKey kV) p) rest

/-- `TemplateDeployer.apply_parameter_changes(old_stack, new_stack)`:
returns the list written back to `old_stack.metadata["Parameters"]`. -/
def apply_parameter_changes (resolveSsm : String → Val → Option Val)
    (oldStackParams : List Val) (templateParams : List (String × Val))
    (newStackParams : List Val) (changeSetsParams : List (List Val)) :
    Except EvalErr (List Val) := do
  let init ← buildParamDictGo [] oldStackParams
  let afterTemplate :=
    templateParams.foldl (fun acc kv => overlayOne resolveSsm acc kv.1 kv.2) init
  let afterNew ← updateParams afterTemplate newStackParams
  let afterCS ← changeSetsParams.foldlM updateParams afterNew
  .ok ((afterCS.map Prod.snd).filter pyTruthy)

/-- Parameter merging as the claim states it: the template overlay uses the
`Default` only when there is no current value for that key, keeping the
current `ParameterValue` otherwise. -/
def overlayOneClaim (resolveSsm : String → Val → Option Val)
    (params : List (String × Val)) (lid : String) (value : Val) :
    List (String × Val) :=
  let dflt := value.pyGet "Default"
  let pv :=
    match List.lookup lid params with
    | some p => p.pyGet "ParameterValue"
    | none => dflt
  let param :=
    match dflt with
    | .null => Val.dict [("ParameterKey", .str lid), ("ParameterValue", pv)]
    | d =>
      match resolve_param resolveSsm (value.pyGet "Type") d with
      | some rv =>
        Val.dict [("ParameterKey", .str lid), ("ParameterValue", pv), ("ResolvedValue", rv)]
      | none => Val.dict [("ParameterKey", .str lid), ("ParameterValue", pv)]
  dictSet params lid param

/-- `apply_parameter_changes` as the claim states it (differs from the code
only in the overlay step). -/
def apply_parameter_changes_claim (resolveSsm : String → Val → Option Val)
    (oldStackParams : List Val) (templateParams : List (String × Val))
    (newStackParams : List Val) (changeSetsParams : List (List Val)) :
    Except EvalErr (List Val) := do
  let init ← buildParamDictGo [] oldStackParams
  let afterTemplate :=
    templateParams.foldl (fun acc kv => overlayOneClaim resolveSsm acc kv.1 kv.2) init
  let afterNew ← updateParams afterTemplate newStackParams
  let afterCS ← changeSetsParams.foldlM updateParams afterNew
  .ok ((afterCS.map Prod.snd).filter pyTruthy)

-- ---------------------------------------------------------------------------
-- The deployment loop skeleton (template_deployer.py 1437-1512).  The
-- per-change work of one inner-loop step (prepare_should_deploy_change, the
-- dependency check, apply_change and the exceptions they raise) is
-- abstracted as a `step` function from a state `σ` to an outcome, so the
-- theorems hold for every behaviour of those collaborators.
-- ---------------------------------------------------------------------------

/-- What one inner-loop step does with the change at the cursor:
`notShouldDeploy` deletes it without progress, `deferDependencyCheck` and
`dependencyException` leave it pending and advance the cursor, `applied`
deletes it and records progress, and `fatalStep` propagates out of the whole
loop. -/
inductive StepOutcome where
  | notShouldDeploy
  | deferDependencyCheck
  | applied
  | dependencyException
  | fatalStep (e : String)

/-- `MAX_ITERS` of `do_apply_changes_in_loop`. -/
def MAX_ITERS : Nat := 30

/-- A deferred change stays pending: re-queue it in front of the rest of the
pass result. -/
def consPending (c : γ) : Except String (List γ × List γ × Bool × σ) →
    Except String (List γ × List γ × Bool × σ)
  | .ok (p, d, u, s3) => .ok (c :: p, d, u, s3)
  | .error e => .error e

/-- An applied change joins `changes_done` and marks the pass as
`updated`. -/
def consDone (c : γ) : Except String (List γ × List γ × Bool × σ) →
    Except String (List γ × List γ × Bool × σ)
  | .ok (p, d, _, s3) => .ok (p, c :: d, true, s3)
  | .error e => .error e

/-- One pass of the inner `while j < len(changes)` loop: returns the still
pending changes, the changes applied in this pass (in order), the `updated`
flag and the final state. -/
def runPass (step : σ → γ → StepOutcome × σ) :
    σ → List γ → Except String (List γ × List γ × Bool × σ)
  | s, [] => .ok ([], [], false, s)
  | s, c :: rest =>
    match step s c with
    | (.notShouldDeploy, s2) => runPass step s2 rest
    | (.deferDependencyCheck, s2) => consPending c (runPass step s2 rest)
    | (.dependencyException, s2) => consPending c (runPass step s2 rest)
    | (.applied, s2) => consDone c (runPass step s2 rest)
    | (.fatalStep e, _) => .error e

/-- Count the pass just finished on top of the recursive result. -/
def bumpIter : Except String (List γ × List γ × σ × Nat) →
    Except String (List γ × List γ × σ × Nat)
  | .ok (p2, d2, s3, n) => .ok (p2, d2, s3, n + 1)
  | .error e => .error e

/-- The `for i in range(max_iters)` loop: run passes, stop when the change
list is empty, fail when a pass made no progress with changes still pending,
and fall out after the iteration cap.  The result carries the remaining
pending changes, all applied changes, the final state, and the number of
passes run. -/
def loopGo (step : σ → γ → StepOutcome × σ) :
    Nat → σ → List γ → List γ → Except String (List γ × List γ × σ × Nat)
  | 0, s, pending, done => .ok (pending, done, s, 0)
  | fuel + 1, s, pending, done =>
    match runPass step s pending with
    | .error e => .error e
    | .ok (p, dNew, updated, s2) =>
      if p.isEmpty then .ok (p, done ++ dNew, s2, 1)
      else if !updated then
        .error "Resource deployment loop completed, pending resource changes"
      else bumpIter (loopGo step fuel s2 p (done ++ dNew))

/-- `TemplateDeployer.do_apply_changes_in_loop(changes, stack)`, with the
per-change work abstracted as `step` (the pre-loop
`add_default_resource_props` pass and the post-loop cleanup and output
resolution act on the stack state, not on the iteration structure modelled
here). -/
def do_apply_changes_in_loop (step : σ → γ → StepOutcome × σ) (s : σ)
    (changes : List γ) : Except String (List γ × List γ × σ × Nat) :=
  loopGo step MAX_ITERS s changes []

-- ---------------------------------------------------------------------------
-- prepare_should_deploy_change / apply_change (template_deployer.py
-- 1126-1149, 1524-1596)
-- ---------------------------------------------------------------------------

/-- `TemplateDeployer.is_deployable_resource(resource)`: the registry has a
deploy config for the type and that config has a `create` entry
(`env.hasCreateTemplate`). -/
def is_deployable_resource (env : Env) (resource : Val) : Except EvalErr Bool := do
  let rtype ← valIndex resource "Type"
  .ok (env.hasCreateTemplate (refKey rtype))

/-- `TemplateDeployer.is_deployed(resource)`:
`bool(retrieve_resource_details(...))`. -/
def is_deployed (env : Env) (resource : Val) : Except EvalErr Bool := do
  let ridV ← valIndex resource "LogicalResourceId"
  let det ← retrieve_resource_details env (refKey ridV)
  .ok (match det with | some s => pyTruthy s | none => false)

/-- `TemplateDeployer.is_updateable(resource)`: deployable, deployed, and the
model class says `is_updatable()`; a type without a model class hits
`None.is_updatable` and raises. -/
def is_updateable (env : Env) (resource : Val) : Except EvalErr Bool := do
  let deployable ← is_deployable_resource env resource
  if !deployable then .ok false
  else do
    let dep ← is_deployed env resource
    if !dep then .ok false
    else do
      let ridV ← valIndex resource "LogicalResourceId"
      let r2 ←
        match List.lookup (refKey ridV) env.resources with
        | some r => Except.ok r
        | none => Except.error (EvalErr.fatal ("KeyError: " ++ refKey ridV))
      let rtype ← valIndex r2 "Type"
      if env.hasModel (refKey rtype) then .ok (env.isUpdatableModel (refKey rtype))
      else .error (.fatal "AttributeError: NoneType has no attribute is_updatable")

/-- `TemplateDeployer.prepare_should_deploy_change(resource_id, change,
stack, new_resources)`: the Python function returns `None` (condition
false), `True` or `False`, and caches `_deployed` on the change; the
returned change carries that mutation. -/
def prepare_should_deploy_change (env : Env) (fuel : Nat) (rc : ResourceChange) :
    Except EvalErr (Option Bool × ResourceChange) := do
  let rid := refKey rc.logicalResourceId
  let resource ←
    match List.lookup rid env.resources with
    | some r => Except.ok r
    | none => Except.error (EvalErr.fatal ("KeyError: " ++ rid))
  let cond ← evaluate_resource_condition env fuel resource
  if !cond then .ok (none, rc)
  else do
    let _ ← resolve_refs_recursively env fuel resource
    let action := rc.action
    if action == "Add" || action == "Modify" then do
      let addBlocked ←
        if action == "Add" then (do
          let deployable ← is_deployable_resource env resource
          Except.ok (!deployable))
        else Except.ok false
      if addBlocked then .ok (some false, rc)
      else do
        let isDep ← is_deployed env resource
        let rc2 := { rc with deployed := some isDep }
        if !isDep then .ok (some true, rc2)
        else if action == "Add" then .ok (some false, rc2)
        else do
          let upd ← is_updateable env resource
          if !upd then .ok (some false, rc2)
          else .ok (some true, rc2)
    else if action == "Remove" then do
      let shouldRemove ← is_deployable_resource env resource
      .ok (some shouldRemove, rc)
    else .ok (some true, rc)

/-- Which resource action `apply_change` dispatches to. -/
inductive ExecutedAction where
  | createAction
  | deleteAction
  | updateAction
  | noneAction
deriving DecidableEq

/-- `TemplateDeployer.apply_change(change, stack)`: pops `_deployed`,
re-checks the resource condition, and executes `create` for an `Add` or for
any change whose cached `_deployed` is `False`, `delete` for a `Remove`, and
the update path for a remaining `Modify`.  The external service effects of
`execute_resource_action` / `update_resource` are summarised by the
`ExecutedAction` tag (the subsequent `update_resource_details` bookkeeping
does not influence the dispatch). -/
def apply_change (env : Env) (fuel : Nat) (rc : ResourceChange) :
    Except EvalErr (ExecutedAction × ResourceChange) := do
  let action := rc.action
  let rid := refKey rc.logicalResourceId
  let resource ←
    match List.lookup rid env.resources with
    | some r => Except.ok r
    | none => Except.error (EvalErr.fatal ("KeyError: " ++ rid))
  let isDeployed := rc.deployed
  let rc2 := { rc with deployed := none }
  let cond ← evaluate_resource_condition env fuel resource
  if !cond then .ok (.noneAction, rc2)
  else if action == "Add" || isDeployed == some false then
    .ok (.createAction, rc2)
  else if action == "Remove" then .ok (.deleteAction, rc2)
  else if action == "Modify" then .ok (.updateAction, rc2)
  else .ok (.noneAction, rc2)

-- ---------------------------------------------------------------------------
-- Stack controller (template_deployer.py 1022-1120, 1198-1222, 1264-1280,
-- 1368-1435)
-- ---------------------------------------------------------------------------

/-- The observable state of a stack (and, when the operation executes a
change set, of that change set's metadata, carried in the `cs*` fields). -/
structure StackModel where
  stackName : String := "stack"
  status : String := ""
  templateResources : List (String × Val) := []
  templateOriginalResources : List (String × Val) := []
  templateParameters : List (String × Val) := []
  metaParameters : List Val := []
  changeSetsParameters : List (List Val) := []
  resources : List (String × Val) := []
  resourceStates : List (String × Val) := []
  outputs : List (String × Val) := []
  conditions : List (String × Val) := []
  capabilities : Val := .null
  csMetaStatus : Val := .null
  csExecutionStatus : Val := .null
  csStatusReason : Val := .null

/-- `Stack.set_stack_status`.  Modelled from the spec: the entities module is
not among the given sources; the spec's state machine says the setter stores
the given status string. -/
def set_stack_status (st : StackModel) (status : String) : StackModel :=
  { st with status := status }

/-- `Stack.set_resource_status`.  Modelled from the spec: stores the new
per-resource status and keeps the previous one. -/
def set_resource_status (st : StackModel) (rid status : String) : StackModel :=
  let prev := ((List.lookup rid st.resourceStates).getD (.dict [])).pyGet "ResourceStatus"
  { st with
    resourceStates := dictSet st.resourceStates rid
      (.dict [("ResourceStatus", .str status), ("PreviousResourceStatus", prev)]) }

/-- `TemplateDeployer.init_resource_status(resources, action)`. -/
def init_resource_status (st : StackModel) (resourceIds : List String)
    (action : String) : StackModel :=
  resourceIds.foldl (fun s rid => set_resource_status s rid (action ++ "_IN_PROGRESS")) st

/-- Exceptions escaping a stack operation. -/
inductive OpException where
  | noStackUpdates (msg : String)
  | evalError (e : EvalErr)

/-- `TemplateDeployer.merge_properties(resource_id, old_stack, new_stack)`:
copy the non-`Properties` keys of the new resource into the old one without
overwriting, overwrite `Properties` key by key, and replace the
`template_original` entry wholesale. -/
def merge_properties (rid : String) (oldSt newSt : StackModel) :
    Except EvalErr StackModel :=
  match List.lookup rid newSt.templateResources with
  | none => .error (.fatal ("KeyError: " ++ rid))
  | some newResource =>
    match newResource,
        pyOrV ((List.lookup rid oldSt.templateResources).getD .null) (.dict []) with
    | .dict nks, .dict oks =>
      let oks2 := nks.foldl
        (fun acc kv =>
          if kv.1 == "Properties" then acc
          else if hasKeyL acc kv.1 then acc
          else dictSet acc kv.1 kv.2)
        oks
      let props0 := pyGetD (.dict oks2) "Properties" (.dict [])
      match valIndex newResource "Properties" with
      | .error e => .error e
      | .ok newProps =>
        match props0, newProps with
        | .dict po, .dict pn =>
          let props1 := Val.dict (pn.foldl (fun acc kv => dictSet acc kv.1 kv.2) po)
          match List.lookup rid newSt.templateOriginalResources with
          | none => .error (.fatal ("KeyError: " ++ rid))
          | some newOrig =>
            .ok { oldSt with
                  templateResources :=
                    dictSet oldSt.templateResources rid (.dict (dictSet oks2 "Properties" props1))
                  templateOriginalResources :=
                    dictSet oldSt.templateOriginalResources rid newOrig }
        | _, _ => .error (.fatal "TypeError: Properties")
    | _, _ => .error (.fatal "TypeError: resource")

/-- The merge step of the `contains_changes` loop:
`merge_properties(resource["LogicalResourceId"], stack, new_stack)`. -/
def mergeById (resource : Val) (st newStack : StackModel) : Except EvalErr StackModel :=
  match valIndex resource "LogicalResourceId" with
  | .error e => .error e
  | .ok lidV => merge_properties (refKey lidV) st newStack

/-- The `contains_changes` check-and-merge loop of `apply_changes`
(lines 1393-1400): each `Modify` consults `resource_config_differs`, and
each `Modify`/`Add` merges properties into the existing stack. -/
def containsMergeLoop (newStack : StackModel) :
    StackModel → Bool → List ResourceChange →
    Except (OpException × StackModel) (Bool × StackModel)
  | st, contains, [] => .ok (contains, st)
  | st, contains, c :: rest =>
    let resAction := c.action
    let lid := refKey c.logicalResourceId
    let resource := (List.lookup lid newStack.templateResources).getD .null
    let checkRes : Except EvalErr Bool :=
      if resAction != "Modify" then .ok true
      else resource_config_differs st.resources st.resourceStates (ensureProps resource)
    match checkRes with
    | .error e => .error (.evalError e, st)
    | .ok b =>
      let contains2 := contains || b
      if resAction == "Modify" || resAction == "Add" then
        match mergeById resource st newStack with
        | .error e => .error (.evalError e, st)
        | .ok st2 => containsMergeLoop newStack st2 contains2 rest
      else
        containsMergeLoop newStack st contains2 rest

/-- The worker body `_run` of `apply_changes_in_loop`: convert the loop
outcome into `ACTION_COMPLETE` / `ACTION_FAILED` (the exception itself is
caught and only logged), set the stack status, and mirror the status onto
the change-set metadata when a change set is being executed. -/
def apply_changes_in_loop_worker (action : String) (isChangeSet : Bool)
    (loopOutcome : Except String Unit) (st : StackModel) : StackModel :=
  let status :=
    match loopOutcome with
    | .ok _ => action ++ "_COMPLETE"
    | .error _ => action ++ "_FAILED"
  let st2 := set_stack_status st status
  if isChangeSet then
    { st2 with
      csMetaStatus := .str status
      csExecutionStatus :=
        .str (if strContains status "FAILED" then "EXECUTE_FAILED" else "EXECUTE_COMPLETE")
      csStatusReason :=
        .str ("Deployment " ++ (if strContains status "FAILED" then "failed" else "succeeded")) }
  else st2

/-- Merge one association list into another (`dict.update`). -/
def dictUpdate (base extra : List (String × Val)) : List (String × Val) :=
  extra.foldl (fun acc kv => dictSet acc kv.1 kv.2) base

/-- Normalise every template resource with the `Properties` default that
`construct_changes` applies in place to the shared template dicts. -/
def normTemplate (resources : List (String × Val)) : List (String × Val) :=
  resources.map fun kv => (kv.1, ensureProps kv.2)

/-- The tail of `apply_changes` after the change list has been constructed:
the `contains_changes` check-and-merge loop, the `NoStackUpdates` raise, the
outputs/conditions merge and the background loop worker. -/
def applyChangesTail (action : String) (isChangeSet : Bool)
    (loopOutcome : Except String Unit) (newStack2 st3 : StackModel)
    (changes : List ResourceChange) : Except (OpException × StackModel) StackModel :=
  match containsMergeLoop newStack2 st3 false changes with
  | .error e => .error e
  | .ok (contains, st4) =>
    if !contains then
      .error (.noStackUpdates "No updates are to be performed.", st4)
    else
      let st5 := { st4 with
        outputs := dictUpdate st4.outputs newStack2.outputs
        conditions := dictUpdate st4.conditions newStack2.conditions }
      .ok (apply_changes_in_loop_worker action isChangeSet loopOutcome st5)

/-- The middle of `apply_changes`, from the point where the merged
parameters have been stored on the existing stack (`st2`): change
construction followed by `applyChangesTail`. -/
def applyChangesMid (action : String) (isChangeSet initFlag : Bool)
    (loopOutcome : Except String Unit) (newStack st2 : StackModel) :
    Except (OpException × StackModel) StackModel :=
  match
    construct_changes st2.resources st2.resourceStates st2.templateResources
      newStack.templateResources initFlag false with
  | .error e => .error (.evalError e, st2)
  | .ok changes =>
    applyChangesTail action isChangeSet loopOutcome
      { newStack with templateResources := normTemplate newStack.templateResources }
      { st2 with templateResources := normTemplate st2.templateResources } changes

/-- `TemplateDeployer.apply_changes(existing_stack, new_stack,
change_set_id, initialize, action)`: resource statuses, parameter merging,
change construction, the `NoStackUpdates` check with its property merging,
the outputs/conditions merge, and finally the background deployment loop,
whose outcome is abstracted as `loopOutcome` (the worker never re-raises).
Errors carry the stack state at the time of the raise. -/
def apply_changes (resolveSsm : String → Val → Option Val)
    (stack newStack : StackModel) (isChangeSet initFlag : Bool)
    (actionOpt : Option String) (loopOutcome : Except String Unit) :
    Except (OpException × StackModel) StackModel :=
  let action := actionOpt.getD "CREATE"
  let st1 := init_resource_status stack (stack.templateResources.map Prod.fst) "UPDATE"
  match
    apply_parameter_changes resolveSsm st1.metaParameters newStack.templateParameters
      newStack.metaParameters newStack.changeSetsParameters with
  | .error e => .error (.evalError e, st1)
  | .ok newParams =>
    applyChangesMid action isChangeSet initFlag loopOutcome newStack
      { st1 with metaParameters := newParams }

/-- `TemplateDeployer.deploy_stack()`: status `CREATE_IN_PROGRESS`, then
`apply_changes(self.stack, self.stack, initialize=True, action="CREATE")`;
an exception sets `CREATE_FAILED` and re-raises. -/
def deploy_stack (resolveSsm : String → Val → Option Val) (stack : StackModel)
    (loopOutcome : Except String Unit) : Except (OpException × StackModel) StackModel :=
  let st1 := set_stack_status stack "CREATE_IN_PROGRESS"
  match apply_changes resolveSsm st1 st1 false true (some "CREATE") loopOutcome with
  | .ok st2 => .ok st2
  | .error (e, st2) => .error (e, set_stack_status st2 "CREATE_FAILED")

/-- `TemplateDeployer.update_stack(new_stack)`: status `UPDATE_IN_PROGRESS`,
then `apply_changes(self.stack, new_stack, action="UPDATE")` with no
exception handler of its own (`set_time_attribute` on success is a timestamp
and is not modelled). -/
def update_stack (resolveSsm : String → Val → Option Val)
    (stack newStack : StackModel) (loopOutcome : Except String Unit) :
    Except (OpException × StackModel) StackModel :=
  let st1 := set_stack_status stack "UPDATE_IN_PROGRESS"
  apply_changes resolveSsm st1 newStack false false (some "UPDATE") loopOutcome

/-- `TemplateDeployer.apply_change_set(change_set)`: pick UPDATE when the
stack is in a terminal create/update-complete state, otherwise CREATE; set
`ACTION_IN_PROGRESS`, copy the capabilities, run `apply_changes`; an
exception sets the change-set status and the stack status to
`ACTION_FAILED` and re-raises. -/
def apply_change_set (resolveSsm : String → Val → Option Val)
    (stack changeSet : StackModel) (loopOutcome : Except String Unit) :
    Except (OpException × StackModel) StackModel :=
  let action :=
    if stack.status == "CREATE_COMPLETE" || stack.status == "UPDATE_COMPLETE" then "UPDATE"
    else "CREATE"
  let st1 := set_stack_status stack (action ++ "_IN_PROGRESS")
  let st2 := { st1 with capabilities := changeSet.capabilities }
  match apply_changes resolveSsm st2 changeSet true false (some action) loopOutcome with
  | .ok st3 => .ok st3
  | .error (e, st3) =>
    .error (e, set_stack_status { st3 with csMetaStatus := .str (action ++ "_FAILED") }
      (action ++ "_FAILED"))

-- ---------------------------------------------------------------------------
-- delete_stack (template_deployer.py 1067-1120)
-- ---------------------------------------------------------------------------

/-- The snapshot `\x7br["LogicalResourceId"]: clone_safe(r) for r in
stack_resources\x7d`. -/
def snapshotResources (acc : List (String × Val)) :
    List (String × Val) → Except EvalErr (List (String × Val))
  | [] => .ok acc
  | (_, r) :: rest => do
    let lidV ← valIndex r "LogicalResourceId"
    snapshotResources (dictSet acc (refKey lidV) r) rest

/-- The preparation loop: default `Properties` to a clone of the resource
itself and record `ResourceType` (raising when `Type` is missing). -/
def prepDeleteResources : List (String × Val) → Except EvalErr (List (String × Val))
  | [] => .ok []
  | (k, r) :: rest => do
    let props := pyGetD r "Properties" r
    let r1 ←
      match r with
      | .dict kvs => Except.ok (Val.dict (dictSet kvs "Properties" props))
      | _ => Except.error (EvalErr.fatal "TypeError: resource")
    let rtype ← valIndex r1 "Type"
    let r2 ←
      match r1 with
      | .dict kvs => Except.ok (Val.dict (dictSet kvs "ResourceType" rtype))
      | _ => Except.error (EvalErr.fatal "TypeError: resource")
    let rest2 ← prepDeleteResources rest
    .ok ((k, r2) :: rest2)

/-- `_safe_lookup_is_deleted`.  Modelled from the spec: a resource is
retained while its recorded status is not `DELETE_COMPLETE`. -/
def isDeletedStatus (st : StackModel) (rid : String) : Bool :=
  match (List.lookup rid st.resourceStates).bind (fun v => v.getKey "ResourceStatus") with
  | some (.str s) => s == "DELETE_COMPLETE"
  | _ => false

/-- One delete cycle over the retained resources: a true condition triggers
the delete action (`delOutcome cycle rid`, the oracle for
`execute_resource_action(..., ACTION_DELETE)`); success records
`DELETE_COMPLETE`, any exception — from the condition evaluation or the
action — is caught and only logged. -/
def deleteOnePass (env : Env) (fuel : Nat) (delOutcome : Nat → String → Bool)
    (cycle : Nat) : StackModel → List (String × Val) → StackModel
  | st, [] => st
  | st, (rid, resource) :: rest =>
    let st2 :=
      match evaluate_resource_condition env fuel resource with
      | .ok true =>
        if delOutcome cycle rid then set_resource_status st rid "DELETE_COMPLETE"
        else st
      | .ok false => st
      | .error _ => st
    deleteOnePass env fuel delOutcome cycle st2 rest

/-- The `for iteration_cycle in range(1, max_cycle + 1)` loop. -/
def deleteCycles (env : Env) (fuel : Nat) (delOutcome : Nat → String → Bool)
    (resources0 : List (String × Val)) : Nat → Nat → StackModel → StackModel
  | _, 0, st => st
  | cycle, n + 1, st =>
    let remaining := resources0.filter fun kv => !(isDeletedStatus st kv.1)
    if remaining.isEmpty then st
    else
      deleteCycles env fuel delOutcome resources0 (cycle + 1) n
        (deleteOnePass env fuel delOutcome cycle st remaining)

/-- `TemplateDeployer.delete_stack()`: status `DELETE_IN_PROGRESS`, up to 10
delete cycles that tolerate failures, and then — unconditionally —
`DELETE_COMPLETE` (there is no `DELETE_FAILED` path).  `env.resources`
should be the stack's live resources, as `self.resources` is in the
source. -/
def delete_stack (env : Env) (fuel : Nat) (stack : StackModel)
    (delOutcome : Nat → String → Bool) : Except (EvalErr × StackModel) StackModel :=
  let st1 := set_stack_status stack "DELETE_IN_PROGRESS"
  match (do
      let snap ← snapshotResources [] st1.resources
      prepDeleteResources snap) with
  | .error e => .error (e, st1)
  | .ok rs0 =>
    let st2 := deleteCycles env fuel delOutcome rs0 1 10 st1
    .ok (set_stack_status st2 "DELETE_COMPLETE")

-- ---------------------------------------------------------------------------
-- Route 53 record set provider (aws_route53_recordset.py 63-150)
-- ---------------------------------------------------------------------------

/-- One `change_resource_record_sets` request issued by the provider. -/
structure R53Call where
  hostedZoneId : Val
  action : String
  resourceRecordSet : Val

/-- The Route 53 client oracle: `list_hosted_zones_by_name(DNSName=...)`
returns the `HostedZones` list. -/
structure R53Env where
  listHostedZonesByName : String → List Val

/-- `util.select_attributes`.  Modelled from the spec: keep exactly the
listed keys of the model. -/
def select_attributes (model : Val) (names : List String) : Val :=
  match model with
  | .dict kvs => .dict (kvs.filter fun kv => names.contains kv.1)
  | v => v

/-- `Route53RecordSetProvider.get_hosted_zone_id_from_name(name, client)`:
requires a name, requires the lookup to return exactly one zone, and yields
that zone's `Id`. -/
def get_hosted_zone_id_from_name (env : R53Env) (hostedZoneName : Val) :
    Except String Val :=
  if !(pyTruthy hostedZoneName) then
    .error "Either HostedZoneId or HostedZoneName must be present."
  else
    let zones := env.listHostedZonesByName (refKey hostedZoneName)
    if zones.length != 1 then
      .error ("Ambiguous HostedZoneName " ++ pyStrN 64 hostedZoneName ++ " provided.")
    else
      match (zones.getD 0 .null).getKey "Id" with
      | some v => .ok v
      | none => .error "KeyError: Id"

def r53AttrNames : List String :=
  ["Name", "Type", "SetIdentifier", "Weight", "Region", "GeoLocation", "Failover",
   "MultiValueAnswer", "TTL", "ResourceRecords", "AliasTarget", "HealthCheckId"]

/-- `Route53RecordSetProvider.create(request)`: resolve the hosted zone by
name when no id is supplied, select the record attributes, default
`EvaluateTargetHealth` for alias targets or wrap the resource records,
coerce a string `TTL`, issue one UPSERT `change_resource_record_sets` call,
and set the model's `Id` to its `Name`.  Success is `.ok (model, calls)`. -/
def route53_create (env : R53Env) (model0 : Val) :
    Except String (Val × List R53Call) := do
  let model1 ←
    if !(pyTruthy (model0.pyGet "HostedZoneId")) then do
      let hzName := model0.pyGet "HostedZoneName"
      let hzId ← get_hosted_zone_id_from_name env hzName
      match model0 with
      | .dict kvs => Except.ok (Val.dict (dictSet kvs "HostedZoneId" hzId))
      | _ => Except.error "TypeError: model"
    else Except.ok model0
  let attrs0 := select_attributes model1 r53AttrNames
  let attrs1 ←
    match attrs0.getKey "AliasTarget" with
    | some aliasT =>
      (match aliasT with
       | .dict atkvs =>
         let at2 :=
           if hasKeyL atkvs "EvaluateTargetHealth" then Val.dict atkvs
           else Val.dict (dictSet atkvs "EvaluateTargetHealth" (.bool false))
         (match attrs0 with
          | .dict ak => Except.ok (Val.dict (dictSet ak "AliasTarget" at2))
          | _ => Except.error "TypeError: attrs")
       | _ => Except.error "TypeError: AliasTarget")
    | none => do
      let rrs ←
        match attrs0.getKey "ResourceRecords" with
        | some (.list rs) => Except.ok rs
        | some _ => Except.error "TypeError: not iterable"
        | none => Except.error "KeyError: ResourceRecords"
      match attrs0 with
      | .dict ak =>
        Except.ok (Val.dict (dictSet ak "ResourceRecords"
          (.list (rrs.map fun r => Val.dict [("Value", r)]))))
      | _ => Except.error "TypeError: attrs"
  let attrs2 ←
    match attrs1.getKey "TTL" with
    | some (.str t) =>
      (match pyInt t with
       | some i =>
         (match attrs1 with
          | .dict ak => Except.ok (Val.dict (dictSet ak "TTL" (.int i)))
          | _ => Except.error "TypeError: attrs")
       | none => Except.error "ValueError: invalid literal for int")
    | _ => Except.ok attrs1
  let hzId ←
    match model1.getKey "HostedZoneId" with
    | some v => Except.ok v
    | none => Except.error "KeyError: HostedZoneId"
  let nameV ←
    match model1.getKey "Name" with
    | some v => Except.ok v
    | none => Except.error "KeyError: Name"
  let model2 ←
    match model1 with
    | .dict kvs => Except.ok (Val.dict (dictSet kvs "Id" nameV))
    | _ => Except.error "TypeError: model"
  .ok (model2, [{ hostedZoneId := hzId, action := "UPSERT", resourceRecordSet := attrs2 }])

-- ---------------------------------------------------------------------------
-- Concrete instances used by the witnesses and counterexamples
-- ---------------------------------------------------------------------------

/-- A plain resource dict (no `Condition`, no intrinsics). -/
def demoResource : Val :=
  .dict [("Type", .str "AWS::SSM::Parameter"), ("LogicalResourceId", .str "A"),
         ("Properties", .dict [("Name", .str "p1")])]

/-- An environment with empty stores and inert model oracles. -/
def demoEnv : Env :=
  { region := "us-east-1"
    accountId := "000000000000"
    stackName := "stack1"
    resources := [("A", demoResource)]
    exportsMap := []
    ssm := fun k => if k == "/p" then some "bar" else none
    ssmSecure := fun _ => none
    getSecretValue := fun _ _ _ => none
    jsonLoads := fun _ => none
    apigatewayPort := 4566
    hasModel := fun t => t == "AWS::SSM::Parameter"
    getRefFromModel := fun _ => some (.str "p1")
    getAttFromModel := fun _ _ => none
    fetchState := fun _ => none
    resolveSsmParamValue := fun _ _ => none
    isUpdatableModel := fun _ => true
    hasCreateTemplate := fun t => t == "AWS::SSM::Parameter" }

/-- `demoEnv` with a deployed resource state (`fetch_state` finds it). -/
def demoEnvDeployed : Env :=
  { demoEnv with fetchState := fun _ => some (.dict [("Name", .str "p1")]) }

/-- A value tree exercising the generic recursion, the API-Gateway URL
rewrite and a dynamic SSM reference. -/
def demoTree : Val :=
  .dict [("a", .str "https://ab1.execute-api.us-east-1.amazonaws.com/prod/x"),
         ("b", .str "\x7b\x7bresolve:ssm:/p\x7d\x7d"),
         ("c", .dict [("Fn::Join", .list [.str "-", .list [.str "x", .int 7]])])]

/-- The change used by the loop-skeleton witness. -/
def demoStep : Unit → Nat → StepOutcome × Unit := fun _ _ => (.applied, ())

/-- The stack used by the delete counterexample: one resource whose delete
action fails in every cycle. -/
def demoDeleteStack : StackModel :=
  { stackName := "stack1"
    status := "CREATE_COMPLETE"
    resources := [("A", demoResource)] }

/-- The stack used by the deploy witness: one resource, present in both the
template and the original template. -/
def demoDeployStack : StackModel :=
  { stackName := "stack1"
    status := ""
    templateResources := [("A", demoResource)]
    templateOriginalResources := [("A", demoResource)]
    resources := [("A", demoResource)] }

/-- The SSM resolution oracle used by the controller demos. -/
def demoResolveSsm : String → Val → Option Val := fun _ _ => none

/-- The outcome of deploying `demoDeployStack` with a failing background
loop. -/
def c2demoResult : StackModel :=
  match deploy_stack demoResolveSsm demoDeployStack (Except.error "boom") with
  | .ok st => st
  | .error (_, st) => st

/-- The stack used by the `NoStackUpdates` counterexample: an update with an
identical template. -/
def demoC3Stack : StackModel :=
  { stackName := "stack1"
    status := "CREATE_COMPLETE"
    templateResources := [("A", demoResource)]
    templateOriginalResources := [("A", demoResource)]
    resources := [("A", demoResource)] }

def demoC3NewStack : StackModel :=
  { stackName := "stack1"
    status := ""
    templateResources := [("A", demoResource)]
    templateOriginalResources := [("A", demoResource)] }

/-- The outcome of that no-op update. -/
def c3UpdateOutcome : Except (OpException × StackModel) StackModel :=
  update_stack demoResolveSsm demoC3Stack demoC3NewStack (Except.ok ())

/-- Existing stack parameters and a template parameter with a `Default`, for
the parameter-merging counterexample. -/
def c5OldParams : List Val :=
  [.dict [("ParameterKey", .str "P"), ("ParameterValue", .str "old")]]

def c5TemplateParams : List (String × Val) :=
  [("P", .dict [("Default", .str "d")])]

/-- A Route 53 client whose zone lookup returns exactly one zone. -/
def demoR53EnvOne : R53Env :=
  { listHostedZonesByName := fun n =>
      if n == "example.com." then [.dict [("Id", .str "Z123"), ("Name", .str "example.com.")]]
      else [] }

/-- A Route 53 client whose zone lookup returns two zones. -/
def demoR53EnvTwo : R53Env :=
  { listHostedZonesByName := fun _ =>
      [.dict [("Id", .str "Z1")], .dict [("Id", .str "Z2")]] }

/-- The record-set model of the end-to-end scenario: name-only hosted zone
reference. -/
def demoR53Model : Val :=
  .dict [("HostedZoneName", .str "example.com."), ("Name", .str "rec.example.com."),
         ("Type", .str "A"), ("ResourceRecords", .list [.str "1.2.3.4"])]

/-- A `Modify` change for the undeployed resource `A`. -/
def demoModifyChange : ResourceChange :=
  { action := "Modify"
    logicalResourceId := .str "A"
    physicalResourceId := .null
    resourceType := .str "AWS::SSM::Parameter"
    replacement := some "False" }

/-- An `Add` change for the same resource. -/
def demoAddChange : ResourceChange :=
  { action := "Add"
    logicalResourceId := .str "A"
    physicalResourceId := .null
    resourceType := .str "AWS::SSM::Parameter"
    replacement := none }

/-- The template-overlay value as the code actually computes it, written
from the amended claim: the template `Default` whenever one is present,
otherwise the entire previous parameter entry (or null when there is
none). -/
def overlayParamValue (cur : Option Val) (dflt : Val) : Val :=
  match dflt with
  | .null => cur.getD .null
  | d => d

/-- One overlay step of the amended description. -/
def overlayOneAmended (resolveSsm : String → Val → Option Val)
    (params : List (String × Val)) (lid : String) (value : Val) :
    List (String × Val) :=
  let dflt := value.pyGet "Default"
  let pv := overlayParamValue (List.lookup lid params) dflt
  let param :=
    match dflt with
    | .null => Val.dict [("ParameterKey", .str lid), ("ParameterValue", pv)]
    | d =>
      match resolve_param resolveSsm (value.pyGet "Type") d with
      | some rv =>
        Val.dict [("ParameterKey", .str lid), ("ParameterValue", pv), ("ResolvedValue", rv)]
      | none => Val.dict [("ParameterKey", .str lid), ("ParameterValue", pv)]
  dictSet params lid param

/-- `apply_parameter_changes` as the amended claim states it. -/
def apply_parameter_changes_amended (resolveSsm : String → Val → Option Val)
    (oldStackParams : List Val) (templateParams : List (String × Val))
    (newStackParams : List Val) (changeSetsParams : List (List Val)) :
    Except EvalErr (List Val) := do
  let init ← buildParamDictGo [] oldStackParams
  let afterTemplate :=
    templateParams.foldl (fun acc kv => overlayOneAmended resolveSsm acc kv.1 kv.2) init
  let afterNew ← updateParams afterTemplate newStackParams
  let afterCS ← changeSetsParams.foldlM updateParams afterNew
  .ok ((afterCS.map Prod.snd).filter pyTruthy)

/-- The outcome of deleting `demoDeleteStack` when every per-resource delete
action fails. -/
def c2deleteResult : StackModel :=
  match delete_stack demoEnv 40 demoDeleteStack (fun _ _ => false) with
  | .ok st => st
  | .error (_, st) => st

/-- The outcome of deploying `demoDeployStack` with a succeeding background
loop. -/
def c2okDeployResult : StackModel :=
  match deploy_stack demoResolveSsm demoDeployStack (Except.ok ()) with
  | .ok st => st
  | .error (_, st) => st

/-- The stack carried by the `NoStackUpdates` exception of the demo no-op
update. -/
def c3demoErrorStack : StackModel :=
  match c3UpdateOutcome with
  | .error (_, st) => st
  | .ok st => st

-- ===========================================================================
-- THEOREMS
-- ===========================================================================

/-- Inversion for `consPending`. -/
theorem consPending_ok {σ γ : Type} (c : γ) (r : Except String (List γ × List γ × Bool × σ))
    (p d : List γ) (u : Bool) (s2 : σ) (h : consPending c r = .ok (p, d, u, s2)) :
    ∃ p1, r = .ok (p1, d, u, s2) ∧ p = c :: p1 := by
  cases r with
  | error e => simp [consPending] at h
  | ok t =>
    obtain ⟨p1, d1, u1, s4⟩ := t
    simp only [consPending, Except.ok.injEq, Prod.mk.injEq] at h
    obtain ⟨h1, h2, h3, h4⟩ := h
    subst h2; subst h3; subst h4
    exact ⟨p1, rfl, h1.symm⟩

/-- Inversion for `consDone`. -/
theorem consDone_ok {σ γ : Type} (c : γ) (r : Except String (List γ × List γ × Bool × σ))
    (p d : List γ) (u : Bool) (s2 : σ) (h : consDone c r = .ok (p, d, u, s2)) :
    ∃ d1 u1, r = .ok (p, d1, u1, s2) ∧ d = c :: d1 ∧ u = true := by
  cases r with
  | error e => simp [consDone] at h
  | ok t =>
    obtain ⟨p1, d1, u1, s4⟩ := t
    simp only [consDone, Except.ok.injEq, Prod.mk.injEq] at h
    obtain ⟨h1, h2, h3, h4⟩ := h
    subst h1; subst h3; subst h4
    exact ⟨d1, u1, rfl, h2.symm, rfl⟩

/-- Inversion for `bumpIter`. -/
theorem bumpIter_ok {σ γ : Type} (r : Except String (List γ × List γ × σ × Nat))
    (p d : List γ) (s2 : σ) (n : Nat) (h : bumpIter r = .ok (p, d, s2, n)) :
    ∃ n1, r = .ok (p, d, s2, n1) ∧ n = n1 + 1 := by
  cases r with
  | error e => simp [bumpIter] at h
  | ok t =>
    obtain ⟨p2, d2, s3, n1⟩ := t
    simp only [bumpIter, Except.ok.injEq, Prod.mk.injEq] at h
    obtain ⟨h1, h2, h3, h4⟩ := h
    subst h1; subst h2; subst h3
    exact ⟨n1, rfl, h4.symm⟩

/-- One pass of the inner loop never grows the pending change list. -/
theorem runPass_length {σ γ : Type} (step : σ → γ → StepOutcome × σ) :
    ∀ (cs : List γ) (s : σ) (p d : List γ) (u : Bool) (s2 : σ),
      runPass step s cs = .ok (p, d, u, s2) → p.length ≤ cs.length
  | [], s, p, d, u, s2, h => by
    simp only [runPass] at h
    cases h
    simp
  | c :: rest, s, p, d, u, s2, h => by
    rcases hstep : step s c with ⟨out, s3⟩
    unfold runPass at h
    rw [hstep] at h
    cases out with
    | notShouldDeploy =>
      exact Nat.le_succ_of_le (runPass_length step rest s3 p d u s2 h)
    | fatalStep e => simp at h
    | deferDependencyCheck =>
      obtain ⟨p1, hrec, hp⟩ := consPending_ok c _ p d u s2 h
      subst hp
      simpa using runPass_length step rest s3 p1 d u s2 hrec
    | dependencyException =>
      obtain ⟨p1, hrec, hp⟩ := consPending_ok c _ p d u s2 h
      subst hp
      simpa using runPass_length step rest s3 p1 d u s2 hrec
    | applied =>
      obtain ⟨d1, u1, hrec, hd, hu⟩ := consDone_ok c _ p d u s2 h
      exact Nat.le_succ_of_le (runPass_length step rest s3 p d1 u1 s2 hrec)

/-- Loop invariants of `loopGo`: the pass counter is bounded by the fuel, a
successful exit either emptied the change list or used up all iterations,
and the pending list never grows. -/
theorem loopGo_props {σ γ : Type} (step : σ → γ → StepOutcome × σ) :
    ∀ (fuel : Nat) (s : σ) (pending done p d : List γ) (s2 : σ) (n : Nat),
      loopGo step fuel s pending done = .ok (p, d, s2, n) →
      n ≤ fuel ∧ (p = [] ∨ n = fuel) ∧ p.length ≤ pending.length
  | 0, s, pending, done, p, d, s2, n, h => by
    simp only [loopGo] at h
    cases h
    exact ⟨Nat.le_refl 0, Or.inr rfl, Nat.le_refl _⟩
  | fuel + 1, s, pending, done, p, d, s2, n, h => by
    rcases hpass : runPass step s pending with e | ⟨p1, d1, updated, s3⟩
    · unfold loopGo at h
      rw [hpass] at h
      cases h
    · unfold loopGo at h
      rw [hpass] at h
      have h2 : (if p1.isEmpty then (Except.ok (p1, done ++ d1, s3, 1) :
            Except String (List γ × List γ × σ × Nat))
          else if !updated then
            .error "Resource deployment loop completed, pending resource changes"
          else bumpIter (loopGo step fuel s3 p1 (done ++ d1))) = Except.ok (p, d, s2, n) := h
      by_cases hp1 : p1.isEmpty
      · rw [if_pos hp1] at h2
        simp only [Except.ok.injEq, Prod.mk.injEq] at h2
        obtain ⟨hp, hd, hs, hn⟩ := h2
        subst hp; subst hn
        have hnil : p1 = [] := List.isEmpty_iff.mp hp1
        subst hnil
        exact ⟨Nat.succ_le_succ (Nat.zero_le fuel), Or.inl rfl, by simp⟩
      · rw [if_neg hp1] at h2
        cases updated with
        | false => simp at h2
        | true =>
          rw [if_neg (by simp)] at h2
          obtain ⟨n1, hrec, hn⟩ := bumpIter_ok _ p d s2 n h2
          subst hn
          obtain ⟨hb, ho, hl⟩ := loopGo_props step fuel s3 p1 (done ++ d1) p d s2 n1 hrec
          refine ⟨Nat.succ_le_succ hb, ?_, ?_⟩
          · rcases ho with hh | hh
            · exact Or.inl hh
            · exact Or.inr (by rw [hh])
          · exact Nat.le_trans hl (runPass_length step pending s p1 d1 true s3 hpass)

/-- Claim C1: `do_apply_changes_in_loop` runs at most `MAX_ITERS = 30`
passes over the pending change list; a successful run that used fewer than
all 30 passes stopped because the list became empty; the pending list never
grows; and a pass that applies no change while changes remain pending makes
the whole loop fail with an exception.  (Termination for every input is by
construction: the loop is a total function.) -/
theorem loop_bound_and_progress {σ γ : Type} (step : σ → γ → StepOutcome × σ)
    (s : σ) (changes : List γ) :
    (∀ p d s2 n, do_apply_changes_in_loop step s changes = .ok (p, d, s2, n) →
      n ≤ MAX_ITERS) ∧
    (∀ p d s2 n, do_apply_changes_in_loop step s changes = .ok (p, d, s2, n) →
      p = [] ∨ n = MAX_ITERS) ∧
    (∀ p d s2 n, do_apply_changes_in_loop step s changes = .ok (p, d, s2, n) →
      p.length ≤ changes.length) ∧
    (∀ p d s2, runPass step s changes = .ok (p, d, false, s2) → p ≠ [] →
      do_apply_changes_in_loop step s changes =
        .error "Resource deployment loop completed, pending resource changes") := by
  refine ⟨?_, ?_, ?_, ?_⟩
  · intro p d s2 n h
    exact (loopGo_props step MAX_ITERS s changes [] p d s2 n h).1
  · intro p d s2 n h
    exact (loopGo_props step MAX_ITERS s changes [] p d s2 n h).2.1
  · intro p d s2 n h
    exact (loopGo_props step MAX_ITERS s changes [] p d s2 n h).2.2
  · intro p d s2 hpass hne
    have hemp : p.isEmpty = false := by
      cases p with
      | nil => exact absurd rfl hne
      | cons a as => rfl
    show loopGo step MAX_ITERS s changes [] = _
    rw [show MAX_ITERS = 29 + 1 from rfl]
    unfold loopGo
    rw [hpass]
    simp [hemp]

/-- Witness for C1 at a concrete one-change input: the loop succeeds in one
pass and the bound holds there. -/
theorem loop_bound_and_progress_witness :
    do_apply_changes_in_loop demoStep () [0] = .ok ([], [0], (), 1) ∧
      (1 : Nat) ≤ MAX_ITERS :=
  ⟨rfl, (loop_bound_and_progress demoStep () [0]).1 [] [0] () 1 rfl⟩

/-- With `filter_unchanged_resources = False` the per-group loop emits a
change for every item. -/
theorem emitGroup_no_filter (sr st : List (String × Val)) (action : String) :
    ∀ items, emitGroup sr st false action items = changesOf action items
  | [] => rfl
  | item :: rest => by
    simp only [emitGroup, changesOf]
    cases hc : get_change_config action (ensureProps item) with
    | error e => simp [Bind.bind, Except.bind, hc]
    | ok c =>
      simp [Bind.bind, Except.bind, hc, emitGroup_no_filter sr st action rest]

/-- Claim C4: with the default `filter_unchanged_resources = False`,
`construct_changes` emits exactly the Remove changes for old-not-new
resources, the Add changes for new-not-old resources (all new resources
when initializing), and the Modify changes for shared resources (none when
initializing), concatenated in the fixed order Remove, Add, Modify — the
claim-side `construct_changes_claim`. -/
theorem construct_changes_matches_claim (selfRes states old new : List (String × Val))
    (initFlag : Bool) :
    construct_changes selfRes states old new initFlag false =
      construct_changes_claim old new initFlag := by
  cases initFlag with
  | false =>
    simp only [construct_changes, construct_changes_claim, emitGroup_no_filter]
    simp
  | true =>
    simp only [construct_changes, construct_changes_claim, emitGroup_no_filter]
    simp only [Bool.not_true, Bool.false_and, List.filter_false, List.map_nil,
      List.filter_true, if_true, changesOf]
    rcases hr : changesOf "Remove" ((old.filter fun kv => !(hasKeyL new kv.1)).map Prod.snd)
      with e | r
    · simp [Bind.bind, Except.bind, hr]
    · rcases ha : changesOf "Add" (new.map Prod.snd) with e | a
      · simp [Bind.bind, Except.bind, hr, ha]
      · simp [Bind.bind, Except.bind, Pure.pure, Except.pure, hr, ha]

/-- Claim C6: inside `invoke_function`, a failure of the (possibly retried)
service call is swallowed — returning Python `None` — exactly when the
action is `delete` and the message matches the not-found markers; any other
failure, and any failure during a non-delete action, propagates. -/
theorem invoke_function_delete_not_found {α : Type} (call : CallResult α)
    (action e : String) :
    (innerCallOutcome call = .error e → action = "delete" →
      check_not_found_exception e = true → invoke_function action call = .ok none) ∧
    (innerCallOutcome call = .error e → check_not_found_exception e = false →
      invoke_function action call = .error e) ∧
    (innerCallOutcome call = .error e → action ≠ "delete" →
      invoke_function action call = .error e) := by
  refine ⟨?_, ?_, ?_⟩
  · intro h ha hm
    subst ha
    simp [invoke_function, h, hm]
  · intro h hm
    simp [invoke_function, h, hm]
  · intro h ha
    have : (action == "delete") = false := by
      simpa using ha
    simp [invoke_function, h, this]

/-- Witness for C6: a delete whose call fails with `NoSuchBucket` returns
normally, while the same failure on a create propagates. -/
theorem invoke_function_delete_not_found_witness :
    invoke_function "delete" (CallResult.failure (α := Nat) "NoSuchBucket: gone") = .ok none ∧
    invoke_function "create" (CallResult.failure (α := Nat) "NoSuchBucket: gone") =
      .error "NoSuchBucket: gone" :=
  ⟨(invoke_function_delete_not_found (CallResult.failure "NoSuchBucket: gone")
      "delete" "NoSuchBucket: gone").1 rfl rfl (by decide),
   (invoke_function_delete_not_found (CallResult.failure "NoSuchBucket: gone")
      "create" "NoSuchBucket: gone").2.2 rfl (by decide)⟩

/-- Claim C8: the intrinsic evaluator — including the API-Gateway URL
rewrite and dynamic-reference post-processing of `resolve_refs_recursively`
— is a pure function of the stack state (`Env`) and the value tree:
evaluating the same tree twice against the same state yields identical
results. -/
theorem resolve_refs_deterministic (env1 env2 : Env) (fuel : Nat) (v1 v2 : Val)
    (henv : env1 = env2) (hv : v1 = v2) :
    resolve_refs_recursively env1 fuel v1 = resolve_refs_recursively env2 fuel v2 := by
  subst henv
  subst hv
  rfl

/-- Witness for C8: two evaluations of a tree that exercises the generic
recursion, the URL rewrite, a dynamic SSM reference and `Fn::Join` agree,
and produce the expected value. -/
theorem resolve_refs_deterministic_witness :
    resolve_refs_recursively demoEnv 60 demoTree =
      .ok (.dict [("a", .str "https://ab1.execute-api.amazonaws.com:4566/prod/x"),
                  ("b", .str "bar"), ("c", .str "x-7")]) ∧
    resolve_refs_recursively demoEnv 60 demoTree =
      resolve_refs_recursively demoEnv 60 demoTree :=
  ⟨rfl, resolve_refs_deterministic demoEnv demoEnv 60 demoTree demoTree rfl rfl⟩

/-- Claim C7: evaluating `Fn::ImportValue` of an export name that is absent
from the cross-stack exports map, or whose entry has no (truthy) `Value`,
returns null instead of raising, for any name whose own evaluation is the
identity. -/
theorem import_value_missing_returns_null (env : Env) (name : String) (m : Nat)
    (hname : resolve_refs_recursively env m (.str name) = .ok (.str name))
    (hmissing : pyTruthy ((exportEntry env name).pyGet "Value") = false) :
    resolve_refs_recursively env (m + 2) (.dict [("Fn::ImportValue", .str name)]) = .ok .null := by
  have h1 : res_underscore env (m + 1) (.dict [("Fn::ImportValue", .str name)]) =
      (resolve_refs_recursively env m (.str name)).bind (fun keyV =>
        let importKey := refKey keyV
        let stackExport := exportEntry env importKey
        if !(pyTruthy (stackExport.pyGet "Value")) then .ok .null
        else .ok (stackExport.pyGet "Value")) := rfl
  rw [hname] at h1
  have h2 : res_underscore env (m + 1) (.dict [("Fn::ImportValue", .str name)]) =
      Except.ok Val.null := by
    rw [h1]
    show (if !(pyTruthy ((exportEntry env name).pyGet "Value")) then
        (Except.ok Val.null : Except EvalErr Val)
      else Except.ok ((exportEntry env name).pyGet "Value")) = Except.ok Val.null
    rw [hmissing]
    rfl
  show (do
      let result ← res_underscore env (m + 1) (.dict [("Fn::ImportValue", .str name)])
      postProcess env result) = .ok .null
  rw [h2]
  rfl

/-- Witness for C7 at a concrete missing export. -/
theorem import_value_missing_returns_null_witness :
    resolve_refs_recursively demoEnv 0 (.str "missing-export") = .ok (.str "missing-export") ∧
    resolve_refs_recursively demoEnv 2 (.dict [("Fn::ImportValue", .str "missing-export")]) =
      .ok .null :=
  ⟨rfl, import_value_missing_returns_null demoEnv "missing-export" 0 rfl (by decide)⟩

/-- Counterexample to C5 as stated: with an existing value `"old"` for key
`P` and a template `Default` of `"d"`, the code sets the parameter to the
`Default`, while the claim ("Default only when there is no current value")
demands `"old"` — the code and the claim-side function disagree at this
input. -/
theorem parameter_default_overrides_current :
    apply_parameter_changes (fun _ _ => none) c5OldParams c5TemplateParams [] [] =
      .ok [.dict [("ParameterKey", .str "P"), ("ParameterValue", .str "d")]] ∧
    apply_parameter_changes_claim (fun _ _ => none) c5OldParams c5TemplateParams [] [] =
      .ok [.dict [("ParameterKey", .str "P"), ("ParameterValue", .str "old")]] ∧
    Val.str "d" ≠ Val.str "old" :=
  ⟨rfl, rfl, by simp⟩

/-- The code-side overlay step equals the amended one. -/
theorem overlayOne_eq_amended (resolveSsm : String → Val → Option Val)
    (params : List (String × Val)) (lid : String) (value : Val) :
    overlayOne resolveSsm params lid value =
      overlayOneAmended resolveSsm params lid value := by
  unfold overlayOne overlayOneAmended overlayParamValue
  cases hd : value.pyGet "Default" <;> cases List.lookup lid params <;> simp

/-- Claim C5 (amended): parameter merging starts from the existing stack
parameters; overlays each template parameter with `ParameterValue` equal to
the template `Default` whenever one is present and otherwise to the whole
previous parameter entry (or null); and then overwrites entries from the
new stack's and each change set's parameter lists except those with
`UsePreviousValue`. -/
theorem apply_parameter_changes_amended_correct (resolveSsm : String → Val → Option Val)
    (oldStackParams : List Val) (templateParams : List (String × Val))
    (newStackParams : List Val) (changeSetsParams : List (List Val)) :
    apply_parameter_changes resolveSsm oldStackParams templateParams
        newStackParams changeSetsParams =
      apply_parameter_changes_amended resolveSsm oldStackParams templateParams
        newStackParams changeSetsParams := by
  unfold apply_parameter_changes apply_parameter_changes_amended
  have hfun : (fun (acc : List (String × Val)) (kv : String × Val) =>
        overlayOne resolveSsm acc kv.1 kv.2) =
      fun acc kv => overlayOneAmended resolveSsm acc kv.1 kv.2 := by
    funext acc kv
    exact overlayOne_eq_amended resolveSsm acc kv.1 kv.2
  rw [hfun]

/-- Claim C9: creating a Route 53 record set that supplies only
`HostedZoneName` resolves the zone by name: a unique zone yields exactly one
UPSERT `change_resource_record_sets` call with that zone's id and a model
whose `Id` is its `Name`; any other number of zones raises the ambiguity
error (so the resource, and with it the stack, fails). -/
theorem route53_create_by_zone_name :
    (∀ (env : R53Env) (hzn nm : String) (ty : Val) (rrs : List Val) (zone zid : Val),
      hzn.isEmpty = false →
      env.listHostedZonesByName hzn = [zone] →
      zone.getKey "Id" = some zid →
      route53_create env (.dict [("HostedZoneName", .str hzn), ("Name", .str nm),
          ("Type", ty), ("ResourceRecords", .list rrs)]) =
        .ok (.dict [("HostedZoneName", .str hzn), ("Name", .str nm), ("Type", ty),
              ("ResourceRecords", .list rrs), ("HostedZoneId", zid), ("Id", .str nm)],
             [{ hostedZoneId := zid, action := "UPSERT",
                resourceRecordSet := .dict [("Name", .str nm), ("Type", ty),
                  ("ResourceRecords", .list (rrs.map fun r => Val.dict [("Value", r)]))] }])) ∧
    (∀ (env : R53Env) (model : Val) (hzn : String),
      pyTruthy (model.pyGet "HostedZoneId") = false →
      model.pyGet "HostedZoneName" = .str hzn →
      hzn.isEmpty = false →
      (env.listHostedZonesByName hzn).length ≠ 1 →
      route53_create env model =
        .error ("Ambiguous HostedZoneName " ++ hzn ++ " provided.")) := by
  constructor
  · intro env hzn nm ty rrs zone zid hne hzones hid
    unfold route53_create get_hosted_zone_id_from_name
    simp +decide [Bind.bind, Except.bind, pyTruthy, Val.pyGet, Val.getKey, hne, hzones, hid,
      select_attributes, dictSet, hasKeyL, refKey, List.lookup, r53AttrNames, List.filter]
    cases zone <;> simp_all [Val.getKey]
  · intro env model hzn hnoid hname hne hlen
    unfold route53_create get_hosted_zone_id_from_name
    rw [hnoid]
    simp +decide [Bind.bind, Except.bind, hname, hne, hlen, pyStrN, pyShowGo,
      refKey, pyTruthy, bne_iff_ne, ne_eq]

/-- Witness for C9: the spec scenario — `example.com.` resolving to the
unique zone `Z123` — and its ambiguous-lookup variant. -/
theorem route53_create_by_zone_name_witness :
    route53_create demoR53EnvOne demoR53Model =
      .ok (.dict [("HostedZoneName", .str "example.com."), ("Name", .str "rec.example.com."),
            ("Type", .str "A"), ("ResourceRecords", .list [.str "1.2.3.4"]),
            ("HostedZoneId", .str "Z123"), ("Id", .str "rec.example.com.")],
           [{ hostedZoneId := .str "Z123", action := "UPSERT",
              resourceRecordSet := .dict [("Name", .str "rec.example.com."), ("Type", .str "A"),
                ("ResourceRecords", .list [.dict [("Value", .str "1.2.3.4")]])] }]) ∧
    route53_create demoR53EnvTwo demoR53Model =
      .error "Ambiguous HostedZoneName example.com. provided." :=
  ⟨route53_create_by_zone_name.1 demoR53EnvOne "example.com." "rec.example.com." (.str "A")
      [.str "1.2.3.4"] (.dict [("Id", .str "Z123"), ("Name", .str "example.com.")]) (.str "Z123")
      (by decide) rfl rfl,
   route53_create_by_zone_name.2 demoR53EnvTwo demoR53Model "example.com."
      rfl rfl (by decide) (by decide)⟩

/-- Claim C10: a `Modify` change whose resource is not yet deployed gets
`_deployed = False` cached by `prepare_should_deploy_change` and is then
dispatched by `apply_change` to the `create` action (not the update path);
conversely an `Add` whose resource is already deployed gets `should_deploy
= False`, which makes the loop delete the change without calling
`apply_change` (the `notShouldDeploy` path of the loop skeleton), so no
service call is made. -/
theorem modify_undeployed_creates (env : Env) (fuel : Nat) (rc : ResourceChange)
    (resource r : Val) :
    (rc.action = "Modify" →
     List.lookup (refKey rc.logicalResourceId) env.resources = some resource →
     evaluate_resource_condition env fuel resource = .ok true →
     resolve_refs_recursively env fuel resource = .ok r →
     is_deployed env resource = .ok false →
     prepare_should_deploy_change env fuel rc =
       .ok (some true, { rc with deployed := some false }) ∧
     apply_change env fuel { rc with deployed := some false } =
       .ok (.createAction, { rc with deployed := none })) ∧
    (rc.action = "Add" →
     List.lookup (refKey rc.logicalResourceId) env.resources = some resource →
     evaluate_resource_condition env fuel resource = .ok true →
     resolve_refs_recursively env fuel resource = .ok r →
     is_deployable_resource env resource = .ok true →
     is_deployed env resource = .ok true →
     prepare_should_deploy_change env fuel rc =
       .ok (some false, { rc with deployed := some true })) := by
  constructor
  · intro hA hl hcond hres hdep
    constructor
    · simp only [prepare_should_deploy_change]
      rw [hl, hA]
      simp +decide [Bind.bind, Except.bind, hcond, hres, hdep]
    · simp only [apply_change]
      rw [show ({ rc with deployed := some false } : ResourceChange).logicalResourceId
          = rc.logicalResourceId from rfl]
      rw [hl]
      simp +decide [Bind.bind, Except.bind, hcond, hA]
  · intro hA hl hcond hres hdeployable hdep
    simp only [prepare_should_deploy_change]
    rw [hl, hA]
    simp +decide [Bind.bind, Except.bind, hcond, hres, hdep, hdeployable]

/-- Witness for C10: the undeployed `Modify` of resource `A` creates it, and
the already-deployed `Add` of the same resource is dropped. -/
theorem modify_undeployed_creates_witness :
    (prepare_should_deploy_change demoEnv 40 demoModifyChange =
       .ok (some true, { demoModifyChange with deployed := some false }) ∧
     apply_change demoEnv 40 { demoModifyChange with deployed := some false } =
       .ok (.createAction, { demoModifyChange with deployed := none })) ∧
    prepare_should_deploy_change demoEnvDeployed 40 demoAddChange =
      .ok (some false, { demoAddChange with deployed := some true }) :=
  ⟨(modify_undeployed_creates demoEnv 40 demoModifyChange demoResource demoResource).1
      rfl rfl rfl rfl rfl,
   (modify_undeployed_creates demoEnvDeployed 40 demoAddChange demoResource demoResource).2
      rfl rfl rfl rfl rfl rfl⟩

/-- `set_resource_status` never touches the stack status. -/
theorem set_resource_status_status (st : StackModel) (rid s : String) :
    (set_resource_status st rid s).status = st.status := rfl

/-- `init_resource_status` never touches the stack status. -/
theorem init_resource_status_status (a : String) :
    ∀ (ids : List String) (st : StackModel),
      (init_resource_status st ids a).status = st.status
  | [], _ => rfl
  | i :: rest, st => by
    have h := init_resource_status_status a rest (set_resource_status st i (a ++ "_IN_PROGRESS"))
    exact h

/-- `merge_properties` only rewrites the template dicts: the status of its
result is the old stack's status. -/
theorem merge_properties_status (rid : String) (oldSt newSt st2 : StackModel)
    (h : merge_properties rid oldSt newSt = .ok st2) : st2.status = oldSt.status := by
  simp only [merge_properties] at h
  repeat' split at h
  all_goals
    first
      | exact Except.noConfusion h
      | (simp only [Except.ok.injEq] at h; subst h; rfl)

/-- `mergeById` preserves the stack status. -/
theorem mergeById_status (resource : Val) (st newStack st2 : StackModel)
    (h : mergeById resource st newStack = .ok st2) : st2.status = st.status := by
  simp only [mergeById] at h
  split at h
  · exact Except.noConfusion h
  · exact merge_properties_status _ _ _ _ h

/-- The check-and-merge loop of `apply_changes` leaves the stack status
untouched, both when it completes and when it raises. -/
theorem containsMergeLoop_status (newStack : StackModel) :
    ∀ (changes : List ResourceChange) (st : StackModel) (contains : Bool),
      (∀ b st4, containsMergeLoop newStack st contains changes = .ok (b, st4) →
        st4.status = st.status) ∧
      (∀ e stE, containsMergeLoop newStack st contains changes = .error (e, stE) →
        stE.status = st.status) := by
  intro changes
  induction changes with
  | nil =>
    intro st contains
    refine ⟨fun b st4 h => ?_, fun e stE h => ?_⟩
    · simp only [containsMergeLoop, Except.ok.injEq, Prod.mk.injEq] at h
      rw [← h.2]
    · exact Except.noConfusion h
  | cons c rest ih =>
    intro st contains
    refine ⟨fun b st4 h => ?_, fun e stE h => ?_⟩
    · simp only [containsMergeLoop] at h
      split at h
      · exact Except.noConfusion h
      · split at h
        · split at h
          · exact Except.noConfusion h
          · rename_i st2 heq
            rw [(ih st2 _).1 b st4 h, mergeById_status _ _ _ _ heq]
        · exact (ih st _).1 b st4 h
    · simp only [containsMergeLoop] at h
      split at h
      · simp only [Except.error.injEq, Prod.mk.injEq] at h
        rw [← h.2]
      · split at h
        · split at h
          · simp only [Except.error.injEq, Prod.mk.injEq] at h
            rw [← h.2]
          · rename_i st2 heq
            rw [(ih st2 _).2 e stE h, mergeById_status _ _ _ _ heq]
        · exact (ih st _).2 e stE h



/-- A failing loop outcome makes the worker record `ACTION_FAILED`. -/
theorem worker_failed_status (action : String) (isCS : Bool) (msg : String)
    (st : StackModel) :
    (apply_changes_in_loop_worker action isCS (.error msg) st).status =
      action ++ "_FAILED" := by
  cases isCS <;> rfl

/-- Every successful result of `applyChangesTail` is a worker result. -/
theorem applyChangesTail_ok_shape (action : String) (isCS : Bool)
    (lo : Except String Unit) (newStack2 st3 : StackModel)
    (changes : List ResourceChange) (st : StackModel)
    (h : applyChangesTail action isCS lo newStack2 st3 changes = .ok st) :
    ∃ st5, st = apply_changes_in_loop_worker action isCS lo st5 := by
  simp only [applyChangesTail] at h
  split at h
  · exact Except.noConfusion h
  · split at h
    · exact Except.noConfusion h
    · simp only [Except.ok.injEq] at h
      exact ⟨_, h.symm⟩

/-- Every error of `applyChangesTail` carries a stack with the status of the
existing stack it was given. -/
theorem applyChangesTail_error_status (action : String) (isCS : Bool)
    (lo : Except String Unit) (newStack2 st3 : StackModel)
    (changes : List ResourceChange) (e : OpException) (stE : StackModel)
    (h : applyChangesTail action isCS lo newStack2 st3 changes = .error (e, stE)) :
    stE.status = st3.status := by
  simp only [applyChangesTail] at h
  split at h
  · rename_i ep heq
    obtain ⟨ea, eb⟩ := ep
    simp only [Except.error.injEq, Prod.mk.injEq] at h
    rw [← h.2]
    exact (containsMergeLoop_status newStack2 changes st3 false).2 ea eb heq
  · rename_i p heq
    split at h
    · simp only [Except.error.injEq, Prod.mk.injEq] at h
      rw [← h.2]
      exact (containsMergeLoop_status newStack2 changes st3 false).1 _ _ heq
    · exact Except.noConfusion h

/-- Every successful result of `applyChangesMid` is a worker result. -/
theorem applyChangesMid_ok_shape (action : String) (isCS initF : Bool)
    (lo : Except String Unit) (newStack st2 : StackModel) (st : StackModel)
    (h : applyChangesMid action isCS initF lo newStack st2 = .ok st) :
    ∃ st5, st = apply_changes_in_loop_worker action isCS lo st5 := by
  simp only [applyChangesMid] at h
  split at h
  · exact Except.noConfusion h
  · exact applyChangesTail_ok_shape _ _ _ _ _ _ _ h

/-- Every error of `applyChangesMid` keeps the status of `st2`. -/
theorem applyChangesMid_error_status (action : String) (isCS initF : Bool)
    (lo : Except String Unit) (newStack st2 : StackModel) (e : OpException)
    (stE : StackModel)
    (h : applyChangesMid action isCS initF lo newStack st2 = .error (e, stE)) :
    stE.status = st2.status := by
  simp only [applyChangesMid] at h
  split at h
  · simp only [Except.error.injEq, Prod.mk.injEq] at h
    rw [← h.2]
  · exact (applyChangesTail_error_status _ _ _ _ _ _ _ _ h).trans rfl

/-- Every successful result of `apply_changes` is a worker result for the
requested action. -/
theorem apply_changes_ok_shape (resolveSsm : String → Val → Option Val)
    (stack newStack : StackModel) (isCS initF : Bool) (actionOpt : Option String)
    (lo : Except String Unit) (st : StackModel)
    (h : apply_changes resolveSsm stack newStack isCS initF actionOpt lo = .ok st) :
    ∃ st5, st = apply_changes_in_loop_worker (actionOpt.getD "CREATE") isCS lo st5 := by
  simp only [apply_changes] at h
  split at h
  · exact Except.noConfusion h
  · exact applyChangesMid_ok_shape _ _ _ _ _ _ _ h

/-- `apply_changes` raises exceptions that carry a stack whose status is the
status of the existing stack: the raise itself never changes the status. -/
theorem apply_changes_error_status (resolveSsm : String → Val → Option Val)
    (stack newStack : StackModel) (isCS initF : Bool) (actionOpt : Option String)
    (lo : Except String Unit) (e : OpException) (stE : StackModel)
    (h : apply_changes resolveSsm stack newStack isCS initF actionOpt lo =
      .error (e, stE)) :
    stE.status = stack.status := by
  simp only [apply_changes] at h
  split at h
  · simp only [Except.error.injEq, Prod.mk.injEq] at h
    rw [← h.2]
    exact init_resource_status_status _ _ _
  · have h2 := applyChangesMid_error_status _ _ _ _ _ _ _ _ h
    rw [h2]
    exact init_resource_status_status _ _ _



/-- `applyChangesTail` when the check-and-merge loop raised. -/
theorem applyChangesTail_of_error (action : String) (isCS : Bool)
    (lo : Except String Unit) (newStack2 st3 : StackModel)
    (changes : List ResourceChange) (p : OpException × StackModel)
    (hm : containsMergeLoop newStack2 st3 false changes = .error p) :
    applyChangesTail action isCS lo newStack2 st3 changes = .error p := by
  unfold applyChangesTail
  rw [hm]

/-- `applyChangesTail` when the loop found no effective change. -/
theorem applyChangesTail_of_no_changes (action : String) (isCS : Bool)
    (lo : Except String Unit) (newStack2 st3 : StackModel)
    (changes : List ResourceChange) (st4 : StackModel)
    (hm : containsMergeLoop newStack2 st3 false changes = .ok (false, st4)) :
    applyChangesTail action isCS lo newStack2 st3 changes =
      .error (.noStackUpdates "No updates are to be performed.", st4) := by
  unfold applyChangesTail
  rw [hm]
  rfl

/-- `applyChangesTail` when the loop found a change: the worker runs. -/
theorem applyChangesTail_of_contains (action : String) (isCS : Bool)
    (lo : Except String Unit) (newStack2 st3 : StackModel)
    (changes : List ResourceChange) (st4 : StackModel)
    (hm : containsMergeLoop newStack2 st3 false changes = .ok (true, st4)) :
    applyChangesTail action isCS lo newStack2 st3 changes =
      .ok (apply_changes_in_loop_worker action isCS lo
        { st4 with
          outputs := dictUpdate st4.outputs newStack2.outputs
          conditions := dictUpdate st4.conditions newStack2.conditions }) := by
  unfold applyChangesTail
  rw [hm]
  rfl

/-- Full inversion of a successful `applyChangesTail`. -/
theorem applyChangesTail_ok_inv (action : String) (isCS : Bool)
    (lo : Except String Unit) (newStack2 st3 : StackModel)
    (changes : List ResourceChange) (st : StackModel)
    (h : applyChangesTail action isCS lo newStack2 st3 changes = .ok st) :
    ∃ st4, containsMergeLoop newStack2 st3 false changes = .ok (true, st4) ∧
      st = apply_changes_in_loop_worker action isCS lo
        { st4 with
          outputs := dictUpdate st4.outputs newStack2.outputs
          conditions := dictUpdate st4.conditions newStack2.conditions } := by
  simp only [applyChangesTail] at h
  split at h
  · exact Except.noConfusion h
  · rename_i contains st4 heq
    split at h
    · exact Except.noConfusion h
    · rename_i hc
      simp only [Except.ok.injEq] at h
      cases contains with
      | false => exact absurd rfl hc
      | true => exact ⟨st4, heq, h.symm⟩

/-- The errors of `applyChangesTail` do not depend on the loop outcome. -/
theorem applyChangesTail_error_swap (action : String) (isCS : Bool)
    (lo lo' : Except String Unit) (newStack2 st3 : StackModel)
    (changes : List ResourceChange) (p : OpException × StackModel)
    (h : applyChangesTail action isCS lo newStack2 st3 changes = .error p) :
    applyChangesTail action isCS lo' newStack2 st3 changes = .error p := by
  simp only [applyChangesTail] at h
  split at h
  · rename_i e heq
    rw [applyChangesTail_of_error action isCS lo' newStack2 st3 changes e heq]
    exact h
  · rename_i contains st4 heq
    split at h
    · rename_i hc
      cases contains with
      | true => exact absurd hc (by decide)
      | false =>
        rw [applyChangesTail_of_no_changes action isCS lo' newStack2 st3 changes st4 heq]
        exact h
    · exact Except.noConfusion h

/-- `applyChangesMid` once change construction has succeeded. -/
theorem applyChangesMid_of_construct (action : String) (isCS initF : Bool)
    (lo : Except String Unit) (newStack st2 : StackModel)
    (changes : List ResourceChange)
    (hc : construct_changes st2.resources st2.resourceStates st2.templateResources
      newStack.templateResources initF false = .ok changes) :
    applyChangesMid action isCS initF lo newStack st2 =
      applyChangesTail action isCS lo
        { newStack with templateResources := normTemplate newStack.templateResources }
        { st2 with templateResources := normTemplate st2.templateResources } changes := by
  unfold applyChangesMid
  rw [hc]

/-- `applyChangesMid` when change construction raised. -/
theorem applyChangesMid_of_construct_error (action : String) (isCS initF : Bool)
    (lo : Except String Unit) (newStack st2 : StackModel) (e : EvalErr)
    (hc : construct_changes st2.resources st2.resourceStates st2.templateResources
      newStack.templateResources initF false = .error e) :
    applyChangesMid action isCS initF lo newStack st2 = .error (.evalError e, st2) := by
  unfold applyChangesMid
  rw [hc]

/-- A successful `applyChangesMid` stays successful for every other loop
outcome; only the worker input differs. -/
theorem applyChangesMid_loop_swap (action : String) (isCS initF : Bool)
    (lo lo' : Except String Unit) (newStack st2 : StackModel) (st : StackModel)
    (h : applyChangesMid action isCS initF lo newStack st2 = .ok st) :
    ∃ st5, st = apply_changes_in_loop_worker action isCS lo st5 ∧
      applyChangesMid action isCS initF lo' newStack st2 =
        .ok (apply_changes_in_loop_worker action isCS lo' st5) := by
  simp only [applyChangesMid] at h
  split at h
  · exact Except.noConfusion h
  · rename_i changes heq
    obtain ⟨st4, hm, hst⟩ := applyChangesTail_ok_inv _ _ _ _ _ _ _ h
    refine ⟨_, hst, ?_⟩
    rw [applyChangesMid_of_construct action isCS initF lo' newStack st2 changes heq]
    exact applyChangesTail_of_contains _ _ _ _ _ _ _ hm

/-- The errors of `applyChangesMid` do not depend on the loop outcome. -/
theorem applyChangesMid_error_swap (action : String) (isCS initF : Bool)
    (lo lo' : Except String Unit) (newStack st2 : StackModel)
    (p : OpException × StackModel)
    (h : applyChangesMid action isCS initF lo newStack st2 = .error p) :
    applyChangesMid action isCS initF lo' newStack st2 = .error p := by
  simp only [applyChangesMid] at h
  split at h
  · rename_i e heq
    rw [applyChangesMid_of_construct_error action isCS initF lo' newStack st2 e heq]
    exact h
  · rename_i changes heq
    rw [applyChangesMid_of_construct action isCS initF lo' newStack st2 changes heq]
    exact applyChangesTail_error_swap _ _ _ _ _ _ _ _ h

/-- A successful `apply_changes` stays successful for every other loop
outcome; only the worker input differs. -/
theorem apply_changes_of_params (resolveSsm : String → Val → Option Val)
    (stack newStack : StackModel) (isCS initF : Bool) (actionOpt : Option String)
    (lo : Except String Unit) (newParams : List Val)
    (hp : apply_parameter_changes resolveSsm
        (init_resource_status stack (stack.templateResources.map Prod.fst)
          "UPDATE").metaParameters
        newStack.templateParameters newStack.metaParameters
        newStack.changeSetsParameters = .ok newParams) :
    apply_changes resolveSsm stack newStack isCS initF actionOpt lo =
      applyChangesMid (actionOpt.getD "CREATE") isCS initF lo newStack
        { init_resource_status stack (stack.templateResources.map Prod.fst) "UPDATE" with
          metaParameters := newParams } := by
  simp only [apply_changes]
  rw [hp]

theorem apply_changes_of_params_error (resolveSsm : String → Val → Option Val)
    (stack newStack : StackModel) (isCS initF : Bool) (actionOpt : Option String)
    (lo : Except String Unit) (e : EvalErr)
    (hp : apply_parameter_changes resolveSsm
        (init_resource_status stack (stack.templateResources.map Prod.fst)
          "UPDATE").metaParameters
        newStack.templateParameters newStack.metaParameters
        newStack.changeSetsParameters = .error e) :
    apply_changes resolveSsm stack newStack isCS initF actionOpt lo =
      .error (.evalError e,
        init_resource_status stack (stack.templateResources.map Prod.fst) "UPDATE") := by
  simp only [apply_changes]
  rw [hp]

theorem apply_changes_loop_swap (resolveSsm : String → Val → Option Val)
    (stack newStack : StackModel) (isCS initF : Bool) (actionOpt : Option String)
    (lo lo' : Except String Unit) (st : StackModel)
    (h : apply_changes resolveSsm stack newStack isCS initF actionOpt lo = .ok st) :
    ∃ st5, st = apply_changes_in_loop_worker (actionOpt.getD "CREATE") isCS lo st5 ∧
      apply_changes resolveSsm stack newStack isCS initF actionOpt lo' =
        .ok (apply_changes_in_loop_worker (actionOpt.getD "CREATE") isCS lo' st5) := by
  simp only [apply_changes] at h
  split at h
  · exact Except.noConfusion h
  · rename_i newParams heq
    obtain ⟨st5, hst, h2⟩ := applyChangesMid_loop_swap _ _ _ _ _ _ _ _ h
    refine ⟨st5, hst, ?_⟩
    rw [apply_changes_of_params resolveSsm stack newStack isCS initF actionOpt lo'
      newParams heq]
    exact h2

/-- The errors of `apply_changes` do not depend on the loop outcome: an
exception seen by the caller never comes from the deployment loop. -/
theorem apply_changes_error_swap (resolveSsm : String → Val → Option Val)
    (stack newStack : StackModel) (isCS initF : Bool) (actionOpt : Option String)
    (lo lo' : Except String Unit) (p : OpException × StackModel)
    (h : apply_changes resolveSsm stack newStack isCS initF actionOpt lo = .error p) :
    apply_changes resolveSsm stack newStack isCS initF actionOpt lo' = .error p := by
  simp only [apply_changes] at h
  split at h
  · rename_i e heq
    rw [apply_changes_of_params_error resolveSsm stack newStack isCS initF actionOpt lo'
      e heq]
    exact h
  · rename_i newParams heq
    rw [apply_changes_of_params resolveSsm stack newStack isCS initF actionOpt lo'
      newParams heq]
    exact applyChangesMid_error_swap _ _ _ _ _ _ _ _ h

/-- Counterexample to claim C2 as stated: deleting a stack whose only
resource fails to delete in all ten cycles still ends with stack status
`DELETE_COMPLETE` — never `DELETE_FAILED` — and the resource was in fact
never deleted. -/
theorem delete_failure_still_completes :
    delete_stack demoEnv 40 demoDeleteStack (fun _ _ => false) = .ok c2deleteResult ∧
    c2deleteResult.status = "DELETE_COMPLETE" ∧
    c2deleteResult.status ≠ "DELETE_FAILED" ∧
    isDeletedStatus c2deleteResult "A" = false :=
  ⟨rfl, rfl, by decide, rfl⟩

/-- Claim C2 (amended): when the background deployment loop fails, the
worker records `ACTION_FAILED` on the stack but swallows the exception: the
caller of `apply_changes` / `deploy_stack` / `update_stack` /
`apply_change_set` never sees the loop failure — whenever the operation
would have returned successfully it still does, now carrying the `*_FAILED`
status, and every exception the caller does see is independent of the loop
outcome.  `delete_stack` ignores per-resource failures entirely and always
ends in `DELETE_COMPLETE`; its only errors predate the cycles and carry
`DELETE_IN_PROGRESS` — there is no `DELETE_FAILED` outcome. -/
theorem stack_status_on_failure :
    (∀ (resolveSsm : String → Val → Option Val) (stack newStack : StackModel)
        (isCS initF : Bool) (action msg : String) (st : StackModel),
      apply_changes resolveSsm stack newStack isCS initF (some action) (.error msg) =
          .ok st →
        st.status = action ++ "_FAILED") ∧
    (∀ (resolveSsm : String → Val → Option Val) (stack newStack : StackModel)
        (isCS initF : Bool) (action msg : String) (lo : Except String Unit)
        (st : StackModel),
      apply_changes resolveSsm stack newStack isCS initF (some action) lo = .ok st →
        ∃ st', apply_changes resolveSsm stack newStack isCS initF (some action)
            (.error msg) = .ok st' ∧
          st'.status = action ++ "_FAILED") ∧
    (∀ (resolveSsm : String → Val → Option Val) (stack newStack : StackModel)
        (isCS initF : Bool) (actionOpt : Option String) (lo lo' : Except String Unit)
        (p : OpException × StackModel),
      apply_changes resolveSsm stack newStack isCS initF actionOpt lo = .error p →
        apply_changes resolveSsm stack newStack isCS initF actionOpt lo' = .error p) ∧
    (∀ (resolveSsm : String → Val → Option Val) (stack : StackModel) (msg : String)
        (st : StackModel),
      deploy_stack resolveSsm stack (.error msg) = .ok st →
        st.status = "CREATE_FAILED") ∧
    (∀ (resolveSsm : String → Val → Option Val) (stack : StackModel) (msg : String)
        (lo : Except String Unit) (st : StackModel),
      deploy_stack resolveSsm stack lo = .ok st →
        ∃ st', deploy_stack resolveSsm stack (.error msg) = .ok st' ∧
          st'.status = "CREATE_FAILED") ∧
    (∀ (resolveSsm : String → Val → Option Val) (stack newStack : StackModel)
        (msg : String) (st : StackModel),
      update_stack resolveSsm stack newStack (.error msg) = .ok st →
        st.status = "UPDATE_FAILED") ∧
    (∀ (resolveSsm : String → Val → Option Val) (stack changeSet : StackModel)
        (msg : String) (st : StackModel),
      apply_change_set resolveSsm stack changeSet (.error msg) = .ok st →
        st.status = "CREATE_FAILED" ∨ st.status = "UPDATE_FAILED") ∧
    (∀ (env : Env) (fuel : Nat) (stack : StackModel)
        (delOutcome : Nat → String → Bool) (st : StackModel),
      delete_stack env fuel stack delOutcome = .ok st →
        st.status = "DELETE_COMPLETE" ∧ st.status ≠ "DELETE_FAILED") ∧
    (∀ (env : Env) (fuel : Nat) (stack : StackModel)
        (delOutcome : Nat → String → Bool) (e : EvalErr) (stE : StackModel),
      delete_stack env fuel stack delOutcome = .error (e, stE) →
        stE.status = "DELETE_IN_PROGRESS") := by
  refine ⟨?_, ?_, ?_, ?_, ?_, ?_, ?_, ?_, ?_⟩
  · intro resolveSsm stack newStack isCS initF action msg st h
    obtain ⟨st5, hst⟩ := apply_changes_ok_shape _ _ _ _ _ _ _ _ h
    rw [hst]
    exact worker_failed_status action isCS msg st5
  · intro resolveSsm stack newStack isCS initF action msg lo st h
    obtain ⟨st5, _, h2⟩ :=
      apply_changes_loop_swap resolveSsm stack newStack isCS initF (some action)
        lo (.error msg) st h
    exact ⟨_, h2, worker_failed_status action isCS msg st5⟩
  · intro resolveSsm stack newStack isCS initF actionOpt lo lo' p h
    exact apply_changes_error_swap _ _ _ _ _ _ lo lo' _ h
  · intro resolveSsm stack msg st h
    simp only [deploy_stack] at h
    split at h
    · rename_i st2 heq
      simp only [Except.ok.injEq] at h
      subst h
      obtain ⟨st5, hst⟩ := apply_changes_ok_shape _ _ _ _ _ _ _ _ heq
      rw [hst]
      exact worker_failed_status "CREATE" false msg st5
    · exact Except.noConfusion h
  · intro resolveSsm stack msg lo st h
    simp only [deploy_stack] at h
    split at h
    · rename_i st2 heq
      obtain ⟨st5, _, h2⟩ :=
        apply_changes_loop_swap resolveSsm (set_stack_status stack "CREATE_IN_PROGRESS")
          (set_stack_status stack "CREATE_IN_PROGRESS") false true (some "CREATE")
          lo (.error msg) st2 heq
      refine ⟨_, ?_, worker_failed_status "CREATE" false msg st5⟩
      simp only [deploy_stack]
      rw [h2]
      rfl
    · exact Except.noConfusion h
  · intro resolveSsm stack newStack msg st h
    simp only [update_stack] at h
    obtain ⟨st5, hst⟩ := apply_changes_ok_shape _ _ _ _ _ _ _ _ h
    rw [hst]
    exact worker_failed_status "UPDATE" false msg st5
  · intro resolveSsm stack changeSet msg st h
    simp only [apply_change_set] at h
    split at h
    · rename_i st3 heq
      simp only [Except.ok.injEq] at h
      subst h
      obtain ⟨st5, hst⟩ := apply_changes_ok_shape _ _ _ _ _ _ _ _ heq
      rw [hst]
      cases hcond : (stack.status == "CREATE_COMPLETE" || stack.status == "UPDATE_COMPLETE") with
      | true =>
        right
        exact worker_failed_status "UPDATE" true msg st5
      | false =>
        left
        exact worker_failed_status "CREATE" true msg st5
    · exact Except.noConfusion h
  · intro env fuel stack delOutcome st h
    simp only [delete_stack] at h
    split at h
    · exact Except.noConfusion h
    · simp only [Except.ok.injEq] at h
      subst h
      exact ⟨rfl, by show ("DELETE_COMPLETE" : String) ≠ "DELETE_FAILED"; decide⟩
  · intro env fuel stack delOutcome e stE h
    simp only [delete_stack] at h
    split at h
    · simp only [Except.error.injEq, Prod.mk.injEq] at h
      rw [← h.2]
      rfl
    · exact Except.noConfusion h

/-- Witness for C2 (amended): the demo deploy with a failing loop returns
successfully with `CREATE_FAILED`; the same deploy with a succeeding loop
(returning `CREATE_COMPLETE`) still returns successfully when the loop
fails instead; and the demo delete with failing resource deletes ends
`DELETE_COMPLETE`. -/
theorem stack_status_on_failure_witness :
    c2demoResult.status = "CREATE_FAILED" ∧
    (∃ st', deploy_stack demoResolveSsm demoDeployStack (Except.error "boom") = .ok st' ∧
      st'.status = "CREATE_FAILED") ∧
    c2deleteResult.status = "DELETE_COMPLETE" ∧ c2deleteResult.status ≠ "DELETE_FAILED" :=
  ⟨stack_status_on_failure.2.2.2.1 demoResolveSsm demoDeployStack "boom" c2demoResult rfl,
   stack_status_on_failure.2.2.2.2.1 demoResolveSsm demoDeployStack "boom" (Except.ok ())
     c2okDeployResult rfl,
   stack_status_on_failure.2.2.2.2.2.2.2.1 demoEnv 40 demoDeleteStack (fun _ _ => false)
     c2deleteResult rfl⟩

/-- Counterexample to claim C3 as stated: a no-op update raises
`NoStackUpdates`, but the stack carried by the exception has status
`UPDATE_IN_PROGRESS`, not the `CREATE_COMPLETE` it started with — the
status is not left unchanged by the operation. -/
theorem no_stack_updates_status_changed :
    c3UpdateOutcome =
      .error (.noStackUpdates "No updates are to be performed.", c3demoErrorStack) ∧
    c3demoErrorStack.status = "UPDATE_IN_PROGRESS" ∧
    demoC3Stack.status = "CREATE_COMPLETE" ∧
    c3demoErrorStack.status ≠ demoC3Stack.status :=
  ⟨rfl, rfl, rfl, by decide⟩

/-- Claim C3 (amended): a diff with no effective change makes the
check-and-merge loop return `contains = false`, upon which `apply_changes`
raises `NoStackUpdates("No updates are to be performed.")`; `apply_changes`
itself preserves the status of the stack it was handed, but the operation
does not restore the pre-operation status: `update_stack` has already set
`UPDATE_IN_PROGRESS` and has no handler, `apply_change_set` rewrites the
status to `CREATE_FAILED` or `UPDATE_FAILED` on the way out, and
`deploy_stack` rewrites it to `CREATE_FAILED`. -/
theorem no_stack_updates_behavior :
    (∀ (action : String) (isCS : Bool) (lo : Except String Unit)
        (newStack2 st3 : StackModel) (changes : List ResourceChange)
        (st4 : StackModel),
      containsMergeLoop newStack2 st3 false changes = .ok (false, st4) →
        applyChangesTail action isCS lo newStack2 st3 changes =
          .error (.noStackUpdates "No updates are to be performed.", st4) ∧
        st4.status = st3.status) ∧
    (∀ (resolveSsm : String → Val → Option Val) (stack newStack : StackModel)
        (isCS initF : Bool) (actionOpt : Option String) (lo : Except String Unit)
        (e : OpException) (stE : StackModel),
      apply_changes resolveSsm stack newStack isCS initF actionOpt lo =
          .error (e, stE) →
        stE.status = stack.status) ∧
    (∀ (resolveSsm : String → Val → Option Val) (stack newStack : StackModel)
        (lo : Except String Unit) (e : OpException) (stE : StackModel),
      update_stack resolveSsm stack newStack lo = .error (e, stE) →
        stE.status = "UPDATE_IN_PROGRESS") ∧
    (∀ (resolveSsm : String → Val → Option Val) (stack changeSet : StackModel)
        (lo : Except String Unit) (e : OpException) (stE : StackModel),
      apply_change_set resolveSsm stack changeSet lo = .error (e, stE) →
        stE.status = "CREATE_FAILED" ∨ stE.status = "UPDATE_FAILED") ∧
    (∀ (resolveSsm : String → Val → Option Val) (stack : StackModel)
        (lo : Except String Unit) (e : OpException) (stE : StackModel),
      deploy_stack resolveSsm stack lo = .error (e, stE) →
        stE.status = "CREATE_FAILED") := by
  refine ⟨?_, ?_, ?_, ?_, ?_⟩
  · intro action isCS lo newStack2 st3 changes st4 hm
    refine ⟨?_, (containsMergeLoop_status newStack2 changes st3 false).1 false st4 hm⟩
    unfold applyChangesTail
    rw [hm]
    rfl
  · intro resolveSsm stack newStack isCS initF actionOpt lo e stE h
    exact apply_changes_error_status _ _ _ _ _ _ _ _ _ h
  · intro resolveSsm stack newStack lo e stE h
    simp only [update_stack] at h
    exact (apply_changes_error_status _ _ _ _ _ _ _ _ _ h).trans rfl
  · intro resolveSsm stack changeSet lo e stE h
    simp only [apply_change_set] at h
    split at h
    · exact Except.noConfusion h
    · rename_i e3 st3 heq
      simp only [Except.error.injEq, Prod.mk.injEq] at h
      rw [← h.2]
      cases hcond : (stack.status == "CREATE_COMPLETE" || stack.status == "UPDATE_COMPLETE") with
      | true => right; rfl
      | false => left; rfl
  · intro resolveSsm stack lo e stE h
    simp only [deploy_stack] at h
    split at h
    · exact Except.noConfusion h
    · rename_i e2 st2 heq
      simp only [Except.error.injEq, Prod.mk.injEq] at h
      rw [← h.2]
      rfl

/-- Witness for C3 (amended): the demo no-op update raises and the carried
stack has status `UPDATE_IN_PROGRESS`. -/
theorem no_stack_updates_behavior_witness :
    c3demoErrorStack.status = "UPDATE_IN_PROGRESS" :=
  no_stack_updates_behavior.2.2.1 demoResolveSsm demoC3Stack demoC3NewStack (Except.ok ())
    (.noStackUpdates "No updates are to be performed.") c3demoErrorStack rfl

end LocalStack
